import Mathlib

/-!
Verification development for the k8s-ai-healer repository.

This file gives a shallow embedding of the core of the healer into Lean 4
and proves or refutes the frozen claims about it.  The embedding follows
the Go sources:

  * the predictor (`analyzePodAdvanced`, `calculateSlope`,
    `calculateAdvancedTrend`, `detectPerformanceDegradation`,
    `PredictIssues`),
  * the action engine (`ExecuteActions` and its dispatch helpers),
  * the auto healer (`HealContainerIssues` and its four remediation
    handlers),
  * the restart analyzer (`analyzeRestartPattern`,
    `AnalyzeRestartPatterns`),
  * the diagnostics executor (`DiagnoseStuckContainers`,
    `RunContainerChecks` and the individual container checks),
  * the collector (`GetAllPodMetrics`).

Modelling conventions:

  * Go `float64` values that only feed comparisons and linear arithmetic
    are modelled as exact rationals; the one place where IEEE division by
    zero is observable (the restart rate) is modelled explicitly with the
    `FloatQ` type below.
  * All I/O (Kubernetes API calls, `exec` into containers) is passed in as
    an explicit environment whose fields give each call its result, and
    the calls a function issues are returned as an explicit effect list.
  * Wall-clock timestamps are omitted: no claim observes them.
  * `fmt.Sprintf` messages that interpolate numbers are modelled by their
    constant message kernel; no claim inspects interpolated text.
-/

/-! ## Go string helpers: strings.Contains, strings.TrimSpace, strconv.Atoi -/

/-- Whether the second character list is a prefix of the first. -/
def strHasPre : List Char → List Char → Bool
  | _, [] => true
  | [], _ :: _ => false
  | c :: cs, d :: ds => c == d && strHasPre cs ds

/-- Whether the second character list occurs inside the first (Go
`strings.Contains` on the underlying bytes, here on characters). -/
def containsChars : List Char → List Char → Bool
  | [], sub => strHasPre [] sub
  | c :: rest, sub => strHasPre (c :: rest) sub || containsChars rest sub

/-- Go `strings.Contains`. -/
def containsStr (s sub : String) : Bool := containsChars s.data sub.data

/-- Whitespace recognised by the model of `strings.TrimSpace`. -/
def isSpaceChar (c : Char) : Bool := c == ' ' || c == '\t' || c == '\n' || c == '\r'

/-- Go `strings.TrimSpace`. -/
def trimSpace (s : String) : String :=
  String.mk (((s.data.dropWhile isSpaceChar).reverse.dropWhile isSpaceChar).reverse)

/-- Value of a decimal digit, if the character is one. -/
def digitVal (c : Char) : Option Nat := if c.isDigit then some (c.toNat - 48) else none

/-- Parse a nonempty all-digit character list as a natural number. -/
def parseDigits (l : List Char) : Option Nat :=
  if l.isEmpty then none
  else l.foldl (fun acc c =>
    match acc, digitVal c with
    | some n, some d => some (n * 10 + d)
    | _, _ => none) (some 0)

/-- Go `strconv.Atoi` (optional sign followed by digits). -/
def atoi (s : String) : Option Int :=
  match s.data with
  | [] => none
  | c :: rest =>
    if c == '-' then (parseDigits rest).map (fun n => -(n : Int))
    else if c == '+' then (parseDigits rest).map (fun n => (n : Int))
    else (parseDigits (c :: rest)).map (fun n => (n : Int))

/-- The system-namespace filter used by the collector, the restart
analyzer and both diagnostics entry points:
`strings.Contains(ns, "kube-") || strings.Contains(ns, "healer-")`. -/
def sysFiltered (nsp : String) : Bool := containsStr nsp "kube-" || containsStr nsp "healer-"

/-! ## Collector data model (collector.go) -/

/-- One pod observation as assembled by the collector
(`collector.PodMetrics`).  `AgeHours` models the `Age` duration in hours. -/
structure PodMetrics where
  Name : String
  Namespace : String
  CPUUsage : String
  MemUsage : String
  CPUPercent : ℚ
  MemPercent : ℚ
  Status : String
  Restarts : Int
  AgeHours : ℚ
  NodeName : String
deriving DecidableEq

/-! ## Predictor data model (predictor.go) -/

/-- `predictor.PredictionResult`.  The Go `TimeToFailure` string is `"N/A"`
or `fmt.Sprintf("%.1f hours (<cause>)", h)`; it is modelled as `none` or
`some (h, cause)` with the cause label taken from the format string. -/
structure PredictionResult where
  PodName : String
  PodNamespace : String
  Risk : String
  Issues : List String
  Action : String
  Confidence : Int
  Score : ℚ
  TimeToFailure : Option (ℚ × String)
  Trend : String
  MemoryLeakRate : ℚ
  CPUGrowthRate : ℚ
  PredictionHours : Int
deriving DecidableEq

/-- `predictor.TrendAnalysis`. -/
structure TrendAnalysis where
  CPUTrend : String
  MemTrend : String
  CPUSlope : ℚ
  MemSlope : ℚ
  IsMemoryLeak : Bool
  IsCPUGrowing : Bool
  HoursToFailure : ℚ
deriving DecidableEq

/-- `calculateSlope` from predictor.go: append the current value to the
history values for the requested resource, then return
`(last - first) / timeSpan` with `timeSpan = (len(history)+1) * 0.5 / 60`
hours (measurements assumed every 30 seconds). -/
def calculateSlope (history : List PodMetrics) (current : PodMetrics)
    (resourceType : String) : ℚ :=
  if history.length < 2 then 0
  else
    let timeSpan : ℚ := ((history.length : ℚ) + 1) * (1/2) / 60
    let values : List ℚ :=
      (history.map fun h => if resourceType = "cpu" then h.CPUPercent else h.MemPercent)
        ++ [if resourceType = "cpu" then current.CPUPercent else current.MemPercent]
    if 2 ≤ values.length then
      ((values.getLast?).getD 0 - (values.head?).getD 0) / timeSpan
    else 0

/-- `calculateAdvancedTrend` from predictor.go. -/
def calculateAdvancedTrend (history : List PodMetrics) (current : PodMetrics) :
    TrendAnalysis :=
  if history.length < 3 then
    { CPUTrend := "UNKNOWN", MemTrend := "UNKNOWN", CPUSlope := 0, MemSlope := 0,
      IsMemoryLeak := false, IsCPUGrowing := false, HoursToFailure := 0 }
  else
    let cpuSlope := calculateSlope history current "cpu"
    let memSlope := calculateSlope history current "memory"
    let cpuTrend :=
      if cpuSlope > 5 then "RISING_FAST"
      else if cpuSlope > 2 then "RISING"
      else if cpuSlope < -5 then "FALLING_FAST"
      else if cpuSlope < -2 then "FALLING"
      else "STABLE"
    let memTrend :=
      if memSlope > 3 then "RISING_FAST"
      else if memSlope > 1 then "RISING"
      else if memSlope < -3 then "FALLING_FAST"
      else if memSlope < -1 then "FALLING"
      else "STABLE"
    { CPUTrend := cpuTrend, MemTrend := memTrend, CPUSlope := cpuSlope,
      MemSlope := memSlope, IsMemoryLeak := memSlope > 1, IsCPUGrowing := cpuSlope > 2,
      HoursToFailure := 0 }

/-- Number of strictly increasing adjacent pairs in a list of rationals
(the loop body of `detectPerformanceDegradation`). -/
def countIncreases : List ℚ → Nat
  | [] => 0
  | [_] => 0
  | a :: b :: rest => (if a < b then 1 else 0) + countIncreases (b :: rest)

/-- `detectPerformanceDegradation` from predictor.go: degradation when more
than 70 percent of adjacent history pairs increase in CPU or in memory. -/
def detectPerformanceDegradation (history : List PodMetrics)
    (_current : PodMetrics) : Bool :=
  if history.length < 5 then false
  else
    let cpuIncreases := countIncreases (history.map (·.CPUPercent))
    let memIncreases := countIncreases (history.map (·.MemPercent))
    let degradationThreshold : ℚ := (history.length : ℚ) * (7/10)
    decide ((cpuIncreases : ℚ) > degradationThreshold)
      || decide ((memIncreases : ℚ) > degradationThreshold)

/-- The fresh result record built at the top of `analyzePodAdvanced`. -/
def initResult (current : PodMetrics) : PredictionResult :=
  { PodName := current.Name, PodNamespace := current.Namespace, Risk := "LOW",
    Issues := [], Action := "MONITOR", Confidence := 100, Score := 0,
    TimeToFailure := none, Trend := "STABLE", MemoryLeakRate := 0,
    CPUGrowthRate := 0, PredictionHours := 0 }

/-- Section 1 of `analyzePodAdvanced`: the CPU threshold rules. -/
def stageCPU (current : PodMetrics) (s : PredictionResult × ℚ) : PredictionResult × ℚ :=
  if current.CPUPercent > 15 then
    ({ s.1 with
        Issues := s.1.Issues ++ ["CRITICAL CPU"], Risk := "CRITICAL",
        Action := "SCALE_UP_URGENT" }, s.2 + 40)
  else if current.CPUPercent > 10 then
    ({ s.1 with
        Issues := s.1.Issues ++ ["HIGH CPU"], Risk := "HIGH",
        Action := "SCALE_UP" }, s.2 + 25)
  else s

/-- Section 1 of `analyzePodAdvanced`: the memory threshold rules. -/
def stageMem (current : PodMetrics) (s : PredictionResult × ℚ) : PredictionResult × ℚ :=
  if current.MemPercent > 15 then
    ({ s.1 with
        Issues := s.1.Issues ++ ["CRITICAL Memory"], Risk := "CRITICAL",
        Action := "RESTART_POD_URGENT" }, s.2 + 40)
  else if current.MemPercent > 10 then
    ({ s.1 with
        Issues := s.1.Issues ++ ["HIGH Memory"], Risk := "HIGH",
        Action := "RESTART_POD" }, s.2 + 25)
  else s

/-- The CPU growth forecast inside section 2 of `analyzePodAdvanced`. -/
def trendCPU (current : PodMetrics) (cpuSlope : ℚ) (s : PredictionResult × ℚ) :
    PredictionResult × ℚ :=
  if cpuSlope > 2 then
    let hoursToFailure := (100 - current.CPUPercent) / cpuSlope
    if 0 < hoursToFailure ∧ hoursToFailure ≤ 72 then
      let r := { s.1 with
                  Issues := s.1.Issues ++ ["CPU PREDICTION"],
                  TimeToFailure := some (hoursToFailure, "CPU overload"),
                  PredictionHours := ⌊hoursToFailure⌋ }
      if hoursToFailure < 24 then
        ({ r with Risk := "CRITICAL", Action := "SCALE_UP_URGENT" }, s.2 + 30 + 20)
      else
        ({ r with Risk := "HIGH", Action := "SCALE_UP_PLANNED" }, s.2 + 30)
    else s
  else s

/-- The memory leak forecast inside section 2 of `analyzePodAdvanced`. -/
def trendMem (current : PodMetrics) (memSlope : ℚ) (s : PredictionResult × ℚ) :
    PredictionResult × ℚ :=
  if memSlope > 1 then
    let hoursToFailure := (100 - current.MemPercent) / memSlope
    if 0 < hoursToFailure ∧ hoursToFailure ≤ 72 then
      let r := { s.1 with
                  Issues := s.1.Issues ++ ["MEMORY LEAK DETECTED"],
                  TimeToFailure := some (hoursToFailure, "Memory leak"),
                  PredictionHours := ⌊hoursToFailure⌋ }
      if hoursToFailure < 12 then
        ({ r with
            Risk := "CRITICAL", Action := "RESTART_POD_URGENT",
            Issues := r.Issues ++ ["IMMEDIATE ACTION REQUIRED"] }, s.2 + 35 + 25)
      else if hoursToFailure < 24 then
        ({ r with Risk := "HIGH", Action := "RESTART_POD_PLANNED" }, s.2 + 35)
      else
        ({ r with Risk := "MEDIUM", Action := "MONITOR_MEMORY_LEAK" }, s.2 + 35)
    else s
  else s

/-- The degradation rule inside section 2 of `analyzePodAdvanced`. -/
def stageDegrade (history : List PodMetrics) (current : PodMetrics)
    (s : PredictionResult × ℚ) : PredictionResult × ℚ :=
  if detectPerformanceDegradation history current then
    let r := { s.1 with Issues := s.1.Issues ++ ["Performance degradation detected over time"] }
    if r.Risk = "LOW" then
      ({ r with Risk := "MEDIUM", Action := "INVESTIGATE_PERFORMANCE" }, s.2 + 20)
    else (r, s.2 + 20)
  else s

/-- The trend label assignment at the end of section 2 of
`analyzePodAdvanced`. -/
def trendLabel (cpuSlope memSlope : ℚ) (r : PredictionResult) : PredictionResult :=
  if cpuSlope > 2 ∧ memSlope > 1 then { r with Trend := "CRITICAL_GROWTH" }
  else if cpuSlope > 1 ∨ memSlope > 1/2 then { r with Trend := "GROWING" }
  else if cpuSlope < -1 ∨ memSlope < -(1/2) then { r with Trend := "DECLINING" }
  else { r with Trend := "STABLE" }

/-- Section 2 of `analyzePodAdvanced`: trend analysis, run only with at
least 5 history samples. -/
def stageTrend (current : PodMetrics) (history : List PodMetrics)
    (s : PredictionResult × ℚ) : PredictionResult × ℚ :=
  if 5 ≤ history.length then
    let t := calculateAdvancedTrend history current
    let s1 : PredictionResult × ℚ :=
      ({ s.1 with MemoryLeakRate := t.MemSlope, CPUGrowthRate := t.CPUSlope }, s.2)
    let s4 := stageDegrade history current (trendMem current t.MemSlope (trendCPU current t.CPUSlope s1))
    (trendLabel t.CPUSlope t.MemSlope s4.1, s4.2)
  else s

/-- Section 3 of `analyzePodAdvanced`: the restart count rule. -/
def stageRestarts (current : PodMetrics) (s : PredictionResult × ℚ) :
    PredictionResult × ℚ :=
  if 3 ≤ current.Restarts then
    ({ s.1 with
        Issues := s.1.Issues ++ ["High restart count"],
        Action := "INVESTIGATE_RESTARTS" }, s.2 + 30)
  else s

/-- Section 3 of `analyzePodAdvanced`: the pod phase rule. -/
def stagePhase (current : PodMetrics) (s : PredictionResult × ℚ) :
    PredictionResult × ℚ :=
  if current.Status ≠ "Running" then
    ({ s.1 with
        Issues := s.1.Issues ++ ["Pod not running"], Risk := "CRITICAL",
        Action := "RESTART_POD" }, s.2 + 50)
  else s

/-- Section 4 of `analyzePodAdvanced`: cap the score at 100 and re-derive
risk and confidence from the score bands. -/
def finalize (s : PredictionResult × ℚ) : PredictionResult :=
  let r := { s.1 with Score := min s.2 100 }
  if r.Score ≥ 80 then { r with Risk := "CRITICAL", Confidence := 95 }
  else if r.Score ≥ 60 then { r with Risk := "HIGH", Confidence := 90 }
  else if r.Score ≥ 40 then { r with Risk := "MEDIUM", Confidence := 85 }
  else if r.Score ≥ 20 then { r with Risk := "LOW-MEDIUM", Confidence := 80 }
  else { r with Risk := "LOW", Confidence := 100 }

/-- `analyzePodAdvanced` from predictor.go, as the composition of its four
numbered sections in source order. -/
def analyzePodAdvanced (current : PodMetrics) (history : List PodMetrics) :
    PredictionResult :=
  finalize (stagePhase current (stageRestarts current
    (stageTrend current history (stageMem current (stageCPU current (initResult current, 0))))))

/-- `PredictIssues` from predictor.go: analyze each current observation
against its stored history and keep results with score above 30 or with a
time-to-failure forecast. -/
def predictIssues (podHistory : String → List PodMetrics)
    (currentMetrics : List PodMetrics) : List PredictionResult :=
  currentMetrics.foldr (fun metric acc =>
    let key := metric.Namespace ++ "/" ++ metric.Name
    let result := analyzePodAdvanced metric (podHistory key)
    if 30 < result.Score ∨ result.TimeToFailure ≠ none then result :: acc else acc) []

/-! ## Action engine (actions.go) -/

/-- Cluster API calls the action engine and auto healer can issue. -/
inductive ClusterCall where
  | deletePod (nsp name : String)
  | updateDeployment (nsp name : String) (replicas : Int)
  | listDeployments (nsp : String)
  | listEvents (nsp name : String)
  | execCmd (nsp pod container cmd : String)
deriving DecidableEq

/-- Whether a cluster call mutates the cluster (pod delete, deployment
replica update, or an in-container exec pipeline). -/
def ClusterCall.isMutating : ClusterCall → Bool
  | .deletePod _ _ => true
  | .updateDeployment _ _ _ => true
  | .execCmd _ _ _ _ => true
  | .listDeployments _ => false
  | .listEvents _ _ => false

/-- Observable actions of the action engine: cluster calls, console
prints, and `logAction` audit prints. -/
inductive EngineEffect where
  | call (c : ClusterCall)
  | print (s : String)
  | audit (actionType nsp name risk : String)
deriving DecidableEq

/-- Whether an engine effect is a mutating cluster call. -/
def EngineEffect.isMutatingCall : EngineEffect → Bool
  | .call c => c.isMutating
  | _ => false

/-- Whether an engine effect is a `logAction` audit print. -/
def EngineEffect.isAudit : EngineEffect → Bool
  | .audit _ _ _ _ => true
  | _ => false

/-- `actions.ActionEngine`: the dry-run flag and the per-key action
counter map (a Go map read as zero when a key is absent). -/
structure ActionEngine where
  dryRun : Bool
  actionCounts : String → Nat

/-- `actions.New`: fresh engine with an empty counter map. -/
def engineNew (dryRun : Bool) : ActionEngine :=
  { dryRun := dryRun, actionCounts := fun _ => 0 }

/-- Environment supplying the results of the cluster calls the action
engine makes: deployment listings, update and delete outcomes, events. -/
structure EngineEnv where
  deployments : String → List (String × Int)
  listErr : String → Bool
  updateErr : String → String → Bool
  deleteErr : String → String → Bool
  eventsErr : String → String → Bool
  eventsOf : String → String → List (String × String)

/-- The deployment scan inside `scaleUpDeployment`: find the first
deployment whose name is a proper prefix of the pod name and bump its
replica count by one. -/
def scanDeployments (env : EngineEnv) (pred : PredictionResult) :
    List (String × Int) → List EngineEffect
  | [] => []
  | (depName, reps) :: rest =>
    if depName.length < pred.PodName.length ∧ strHasPre pred.PodName.data depName.data then
      EngineEffect.call (.updateDeployment pred.PodNamespace depName (reps + 1)) ::
      (if env.updateErr pred.PodNamespace depName then
        [EngineEffect.print "Failed to scale deployment"]
      else
        [EngineEffect.print "AUTO-SCALED deployment",
         EngineEffect.audit "AUTO_SCALE_UP" pred.PodNamespace pred.PodName pred.Risk])
    else scanDeployments env pred rest

/-- `scaleUpDeployment` from actions.go. -/
def scaleUpDeployment (a : ActionEngine) (env : EngineEnv) (pred : PredictionResult) :
    List EngineEffect :=
  if a.dryRun then [EngineEffect.print "[DRY RUN] Would scale UP deployment"]
  else
    EngineEffect.call (.listDeployments pred.PodNamespace) ::
    (if env.listErr pred.PodNamespace then [EngineEffect.print "Failed to list deployments"]
     else scanDeployments env pred (env.deployments pred.PodNamespace))

/-- `restartPod` from actions.go.  In dry-run mode it only prints; no
`HealingAction` audit record exists in the action engine at all, and on a
failed delete it logs and returns without calling `logAction`. -/
def restartPod (a : ActionEngine) (env : EngineEnv) (pred : PredictionResult) :
    List EngineEffect :=
  if a.dryRun then [EngineEffect.print "[DRY RUN] Would restart pod"]
  else
    EngineEffect.call (.deletePod pred.PodNamespace pred.PodName) ::
    (if env.deleteErr pred.PodNamespace pred.PodName then
      [EngineEffect.print "Failed to restart pod"]
    else
      [EngineEffect.print "AUTO-RESTARTED pod",
       EngineEffect.audit "AUTO_RESTART" pred.PodNamespace pred.PodName pred.Risk])

/-- `investigatePod` from actions.go (not gated on dry-run; reads events). -/
def investigatePod (_a : ActionEngine) (env : EngineEnv) (pred : PredictionResult) :
    List EngineEffect :=
  [EngineEffect.print "INVESTIGATING pod",
   EngineEffect.call (.listEvents pred.PodNamespace pred.PodName)]
  ++ (if env.eventsErr pred.PodNamespace pred.PodName = false
        ∧ env.eventsOf pred.PodNamespace pred.PodName ≠ [] then
      ((env.eventsOf pred.PodNamespace pred.PodName).take 3).map
        (fun ev => EngineEffect.print ("event " ++ ev.1 ++ " " ++ ev.2))
    else [])
  ++ [EngineEffect.audit "INVESTIGATE" pred.PodNamespace pred.PodName pred.Risk]

/-- `monitorPod` from actions.go. -/
def monitorPod (_a : ActionEngine) (pred : PredictionResult) : List EngineEffect :=
  [EngineEffect.print "MONITORING CLOSELY",
   EngineEffect.audit "MONITOR" pred.PodNamespace pred.PodName pred.Risk]

/-- The switch statement inside `ExecuteActions`. -/
def dispatchPred (a : ActionEngine) (env : EngineEnv) (pred : PredictionResult) :
    List EngineEffect :=
  if pred.Action = "SCALE_UP_URGENT" then scaleUpDeployment a env pred
  else if pred.Action = "SCALE_UP" then scaleUpDeployment a env pred
  else if pred.Action = "RESTART_POD_URGENT" then restartPod a env pred
  else if pred.Action = "RESTART_POD" then restartPod a env pred
  else if pred.Action = "INVESTIGATE_RESTARTS" then investigatePod a env pred
  else if pred.Action = "MONITOR_CLOSELY" then monitorPod a pred
  else [EngineEffect.print "Monitoring"]

/-- The pod key `"<namespace>/<name>"` used by the counter map. -/
def podKeyOf (pred : PredictionResult) : String :=
  pred.PodNamespace ++ "/" ++ pred.PodName

/-- The loop body of `ExecuteActions`: skip a prediction whose key has
already accumulated 3 actions, otherwise dispatch it and increment the
counter afterwards (whatever the dispatch outcome was).  Returns the
final engine, the effect trace, and the list of dispatched
`(key, action tag)` pairs. -/
def execLoop (env : EngineEnv) (a : ActionEngine) :
    List PredictionResult → ActionEngine × List EngineEffect × List (String × String)
  | [] => (a, [], [])
  | pred :: rest =>
    let key := podKeyOf pred
    if 3 ≤ a.actionCounts key then
      let r := execLoop env a rest
      (r.1, EngineEffect.print "Skipping - max actions reached" :: r.2.1, r.2.2)
    else
      let a2 : ActionEngine :=
        { a with actionCounts := fun k => if k = key then a.actionCounts k + 1 else a.actionCounts k }
      let r := execLoop env a2 rest
      (r.1, dispatchPred a env pred ++ r.2.1, (key, pred.Action) :: r.2.2)

/-- `ExecuteActions` from actions.go (the banner prints are modelled as
part of the effect trace; an empty prediction list returns early). -/
def executeActions (a : ActionEngine) (env : EngineEnv)
    (preds : List PredictionResult) :
    ActionEngine × List EngineEffect × List (String × String) :=
  if preds.isEmpty then (a, [], [])
  else
    let r := execLoop env a preds
    (r.1, EngineEffect.print "EXECUTING HEALING ACTIONS" :: r.2.1 ++ [EngineEffect.print "done"], r.2.2)

/-- A whole process lifetime: `ExecuteActions` called once per tick on the
same engine, accumulating the dispatch list. -/
def runBatches (env : EngineEnv) (a : ActionEngine) :
    List (List PredictionResult) → ActionEngine × List (String × String)
  | [] => (a, [])
  | batch :: rest =>
    let r := executeActions a env batch
    let r2 := runBatches env r.1 rest
    (r2.1, r.2.2 ++ r2.2)

/-- Number of dispatched actions recorded against one key. -/
def countKey (k : String) (l : List (String × String)) : Nat :=
  (l.filter (fun d => d.1 == k)).length

/-! ## Auto healer (autoheal.go) -/

/-- `diagnostics.HealingAction` (the audit record; the wall-clock
timestamp field is omitted). -/
structure HealingAction where
  ActionType : String
  PodName : String
  Namespace : String
  ContainerName : String
  Description : String
  Status : String
  Result : String
deriving DecidableEq

/-- `diagnostics.ContainerCheck`. -/
structure ContainerCheck where
  CheckName : String
  Status : String
  Details : String
  Severity : String
  FixActions : List String
deriving DecidableEq

/-- `diagnostics.ContainerCheckResult`. -/
structure ContainerCheckResult where
  PodName : String
  Namespace : String
  ContainerName : String
  Checks : List ContainerCheck
  OverallStatus : String
  NeedsAction : Bool
deriving DecidableEq

/-- `diagnostics.AutoHealer`: bounded action history plus dry-run flag. -/
structure AutoHealer where
  history : List HealingAction
  dryRun : Bool

/-- Environment supplying exec outputs (`none` models a failed exec) and
pod delete outcomes for the diagnostics engine and auto healer. -/
structure ExecEnv where
  exec : String → String → String → String → Option String
  deleteErr : String → String → Bool

/-- The `/tmp` cleanup command pipeline from `cleanupTmpDirectory`. -/
def cleanupTmpCommands : List String :=
  ["find /tmp -type f -atime +1 -delete 2>/dev/null || true",
   "find /tmp -type f -size +10M -delete 2>/dev/null || true",
   "find /tmp -name \x27*.log\x27 -mtime +1 -delete 2>/dev/null || true",
   "find /tmp -name \x27core.*\x27 -delete 2>/dev/null || true",
   "find /tmp -name \x27*.tmp\x27 -mtime +1 -delete 2>/dev/null || true"]

/-- Run a best-effort cleanup pipeline, recording one result line per
command (shared loop of `cleanupTmpDirectory` and `cleanupDiskSpace`). -/
def runCleanup (env : ExecEnv) (cr : ContainerCheckResult) (cmds : List String) :
    List String × List ClusterCall :=
  cmds.foldl (fun (s : List String × List ClusterCall) cmd =>
    let calls := s.2 ++ [ClusterCall.execCmd cr.Namespace cr.PodName cr.ContainerName cmd]
    match env.exec cr.Namespace cr.PodName cr.ContainerName cmd with
    | none => (s.1 ++ ["Failed: " ++ cmd], calls)
    | some _ => (s.1 ++ ["Cleanup executed"], calls)) ([], [])

/-- `cleanupTmpDirectory` from autoheal.go. -/
def cleanupTmpDirectory (h : AutoHealer) (env : ExecEnv)
    (cr : ContainerCheckResult) (_check : ContainerCheck) :
    HealingAction × List ClusterCall :=
  let action : HealingAction :=
    { ActionType := "CLEANUP_TMP", PodName := cr.PodName, Namespace := cr.Namespace,
      ContainerName := cr.ContainerName, Description := "Cleaning up /tmp directory",
      Status := "EXECUTING", Result := "" }
  if h.dryRun then
    ({ action with Status := "DRY_RUN", Result := "Would cleanup /tmp directory" }, [])
  else
    let r := runCleanup env cr cleanupTmpCommands
    ({ action with Status := "COMPLETED", Result := String.intercalate "; " r.1 }, r.2)

/-- The disk cleanup command pipeline from `cleanupDiskSpace`. -/
def cleanupDiskCommands : List String :=
  ["find /var/log -name \x27*.log\x27 -size +50M -exec truncate -s 10M \x7b\x7d + 2>/dev/null || true",
   "find /var/log -name \x27*.log.*\x27 -mtime +7 -delete 2>/dev/null || true",
   "find / -name \x27*.core\x27 -delete 2>/dev/null || true",
   "find /var/tmp -type f -mtime +3 -delete 2>/dev/null || true"]

/-- `cleanupDiskSpace` from autoheal.go. -/
def cleanupDiskSpace (h : AutoHealer) (env : ExecEnv)
    (cr : ContainerCheckResult) (_check : ContainerCheck) :
    HealingAction × List ClusterCall :=
  let action : HealingAction :=
    { ActionType := "CLEANUP_DISK", PodName := cr.PodName, Namespace := cr.Namespace,
      ContainerName := cr.ContainerName, Description := "Cleaning up disk space",
      Status := "EXECUTING", Result := "" }
  if h.dryRun then
    ({ action with Status := "DRY_RUN", Result := "Would cleanup disk space" }, [])
  else
    let r := runCleanup env cr cleanupDiskCommands
    ({ action with Status := "COMPLETED", Result := String.intercalate "; " r.1 }, r.2)

/-- The two probe commands of `fixNetworkConnectivity`. -/
def networkCommands : List String :=
  ["ip route flush cache 2>/dev/null || true",
   "ping -c 1 kubernetes.default.svc.cluster.local 2>/dev/null && echo \x27Network OK\x27 || echo \x27Network FAIL\x27"]

/-- `fixNetworkConnectivity` from autoheal.go.  Note that the source sets
`action.Status = "FAILED"` when the escalation delete fails, but that
assignment is unconditionally overwritten by `action.Status = "COMPLETED"`
immediately below the escalation block; the model reproduces this
faithfully. -/
def fixNetworkConnectivity (h : AutoHealer) (env : ExecEnv)
    (cr : ContainerCheckResult) (_check : ContainerCheck) :
    HealingAction × List ClusterCall :=
  let action : HealingAction :=
    { ActionType := "FIX_NETWORK", PodName := cr.PodName, Namespace := cr.Namespace,
      ContainerName := cr.ContainerName, Description := "Fixing network connectivity",
      Status := "EXECUTING", Result := "" }
  if h.dryRun then
    ({ action with Status := "DRY_RUN", Result := "Would restart network services and pod if needed" }, [])
  else
    let probe := networkCommands.foldl
      (fun (s : List String × Bool × List ClusterCall) cmd =>
        let calls := s.2.2 ++ [ClusterCall.execCmd cr.Namespace cr.PodName cr.ContainerName cmd]
        match env.exec cr.Namespace cr.PodName cr.ContainerName cmd with
        | none => (s.1 ++ ["Command failed"], true, calls)
        | some out =>
          (s.1 ++ [trimSpace out], s.2.1 || containsStr out "Network FAIL", calls))
      ([], false, [])
    let results := probe.1
    let networkFailed := probe.2.1
    let calls := probe.2.2
    if networkFailed then
      let results := results ++ ["Network still failing - attempting pod restart"]
      let calls := calls ++ [ClusterCall.deletePod cr.Namespace cr.PodName]
      if env.deleteErr cr.Namespace cr.PodName then
        let action := { action with Status := "FAILED" }
        let results := results ++ ["Pod restart failed"]
        ({ action with Status := "COMPLETED", Result := String.intercalate "; " results }, calls)
      else
        let action := { action with
                         ActionType := "RESTART_POD_NETWORK",
                         Description := "Restarted pod due to network failure" }
        let results := results ++ ["Pod restarted successfully"]
        ({ action with Status := "COMPLETED", Result := String.intercalate "; " results }, calls)
    else
      ({ action with Status := "COMPLETED", Result := String.intercalate "; " results }, calls)

/-- The single probe command of `fixDNSResolution`. -/
def dnsFixCommands : List String :=
  ["nslookup kubernetes.default.svc.cluster.local 2>/dev/null && echo \x27DNS OK\x27 || echo \x27DNS FAIL\x27"]

/-- `fixDNSResolution` from autoheal.go. -/
def fixDNSResolution (h : AutoHealer) (env : ExecEnv)
    (cr : ContainerCheckResult) (_check : ContainerCheck) :
    HealingAction × List ClusterCall :=
  let action : HealingAction :=
    { ActionType := "FIX_DNS", PodName := cr.PodName, Namespace := cr.Namespace,
      ContainerName := cr.ContainerName, Description := "Fixing DNS resolution",
      Status := "EXECUTING", Result := "" }
  if h.dryRun then
    ({ action with Status := "DRY_RUN", Result := "Would flush DNS cache and restart DNS" }, [])
  else
    let r := dnsFixCommands.foldl
      (fun (s : List String × List ClusterCall) cmd =>
        let calls := s.2 ++ [ClusterCall.execCmd cr.Namespace cr.PodName cr.ContainerName cmd]
        match env.exec cr.Namespace cr.PodName cr.ContainerName cmd with
        | none => (s.1 ++ ["DNS command failed"], calls)
        | some out => (s.1 ++ [trimSpace out], calls)) ([], [])
    ({ action with Status := "COMPLETED", Result := String.intercalate "; " r.1 }, r.2)

/-- The inner switch of `HealContainerIssues`, selecting a handler by
check name and fix tag. -/
def healOne (h : AutoHealer) (env : ExecEnv) (cr : ContainerCheckResult)
    (check : ContainerCheck) : Option (HealingAction × List ClusterCall) :=
  if check.CheckName = "/tmp Directory" then
    if check.FixActions.contains "CLEANUP_TMP" then some (cleanupTmpDirectory h env cr check)
    else none
  else if check.CheckName = "Disk Space" then
    if check.FixActions.contains "CLEANUP_DISK" then some (cleanupDiskSpace h env cr check)
    else none
  else if check.CheckName = "Network Connectivity" then
    if check.FixActions.contains "CHECK_NETWORK" then some (fixNetworkConnectivity h env cr check)
    else none
  else if check.CheckName = "DNS Resolution" then
    if check.FixActions.contains "RESTART_DNS" then some (fixDNSResolution h env cr check)
    else none
  else none

/-- The per-report check loop of `HealContainerIssues` (skips checks whose
status is OK). -/
def healChecksFor (h : AutoHealer) (env : ExecEnv) (cr : ContainerCheckResult) :
    List ContainerCheck → List (HealingAction × List ClusterCall)
  | [] => []
  | check :: rest =>
    if check.Status = "OK" then healChecksFor h env cr rest
    else
      match healOne h env cr check with
      | some ac => ac :: healChecksFor h env cr rest
      | none => healChecksFor h env cr rest

/-- The outer report loop of `HealContainerIssues`. -/
def healAll (h : AutoHealer) (env : ExecEnv) :
    List ContainerCheckResult → List (HealingAction × List ClusterCall)
  | [] => []
  | cr :: rest =>
    if cr.NeedsAction = false then healAll h env rest
    else healChecksFor h env cr cr.Checks ++ healAll h env rest

/-- `HealContainerIssues` from autoheal.go: run the handlers, append the
produced actions to the bounded (≤ 100) history, and return the healer,
the produced actions, and all cluster calls issued. -/
def healContainerIssues (h : AutoHealer) (env : ExecEnv)
    (containerChecks : List ContainerCheckResult) :
    AutoHealer × List HealingAction × List ClusterCall :=
  let pairs := healAll h env containerChecks
  let actions := pairs.map (·.1)
  let calls := (pairs.map (·.2)).flatten
  let hist2 := h.history ++ actions
  let hist3 := if 100 < hist2.length then hist2.drop (hist2.length - 100) else hist2
  ({ h with history := hist3 }, actions, calls)

/-! ## Restart analyzer (restart_analyzer.go) -/

/-- Last termination state of a container
(`corev1.ContainerStateTerminated`, the two fields the analyzer reads). -/
structure TerminatedState where
  ExitCode : Int
  Reason : String
deriving DecidableEq

/-- `corev1.ContainerStatus`, the two fields the healer reads. -/
structure ContainerStatus where
  RestartCount : Int
  LastTermination : Option TerminatedState
deriving DecidableEq

/-- The slice of `corev1.Pod` the healer reads.  `AgeHours` models
`time.Since(pod.CreationTimestamp.Time)` in hours; `Containers` lists the
spec container names. -/
structure Pod where
  Name : String
  Namespace : String
  Phase : String
  ContainerStatuses : List ContainerStatus
  Containers : List String
  AgeHours : ℚ
  NodeName : String
deriving DecidableEq

/-- `diagnostics.RestartPattern`. -/
structure RestartPattern where
  PodName : String
  Namespace : String
  RestartCount : Int
  Pattern : String
  Frequency : String
  Severity : String
  RootCause : String
  Actions : List String
deriving DecidableEq

/-- IEEE-style value of a Go `float64` division in the restart analyzer:
a finite rational, a signed infinity, or NaN. -/
inductive FloatQ where
  | fin (q : ℚ)
  | posInf
  | negInf
  | nan
deriving DecidableEq

/-- Strict greater-than against a rational threshold, with IEEE ordering
semantics for the non-finite values. -/
def FloatQ.gtQ : FloatQ → ℚ → Bool
  | .fin q, t => decide (t < q)
  | .posInf, _ => true
  | .negInf, _ => false
  | .nan, _ => false

/-- The Go expression `float64(totalRestarts) / podAge.Hours()` under IEEE
semantics: finite quotient when the age is nonzero, a signed infinity (or
NaN for 0/0) when it is zero.  There is no `max(age, epsilon)` guard in
the source. -/
def restartRate (totalRestarts : Int) (ageHours : ℚ) : FloatQ :=
  if ageHours ≠ 0 then .fin ((totalRestarts : ℚ) / ageHours)
  else if 0 < totalRestarts then .posInf
  else if totalRestarts < 0 then .negInf
  else .nan

/-- Total restarts across the container statuses of a pod. -/
def totalRestartsOf (pod : Pod) : Int :=
  (pod.ContainerStatuses.map (·.RestartCount)).sum

/-- The frequency/severity bucket assignment of `analyzeRestartPattern`. -/
def freqStage (rate : FloatQ) (p : RestartPattern) : RestartPattern :=
  if rate.gtQ 2 then { p with Frequency := "VERY_HIGH", Severity := "CRITICAL" }
  else if rate.gtQ 1 then { p with Frequency := "HIGH", Severity := "HIGH" }
  else if rate.gtQ (1/2) then { p with Frequency := "MEDIUM", Severity := "MEDIUM" }
  else { p with Frequency := "LOW", Severity := "LOW" }

/-- The restart-pattern classification of `analyzeRestartPattern`. -/
def patternStage (totalRestarts : Int) (ageHours : ℚ) (rate : FloatQ)
    (p : RestartPattern) : RestartPattern :=
  if 10 ≤ totalRestarts then
    { p with
        Pattern := "CRASH_LOOP", RootCause := "Persistent application crashes",
        Actions := ["CHECK_LOGS", "ROLLBACK_DEPLOYMENT", "CHECK_RESOURCES"] }
  else if 5 ≤ totalRestarts ∧ ageHours < 1 then
    { p with
        Pattern := "RAPID_RESTART", RootCause := "Fast restart cycle - likely config issue",
        Actions := ["CHECK_CONFIG", "CHECK_LOGS", "RESTART_POD"] }
  else if 3 ≤ totalRestarts ∧ ageHours < 1/2 then
    { p with
        Pattern := "STARTUP_FAILURE", RootCause := "Application failing to start properly",
        Actions := ["CHECK_STARTUP_PROBE", "CHECK_DEPENDENCIES", "CHECK_LOGS"] }
  else if rate.gtQ (1/10) then
    { p with
        Pattern := "PERIODIC_RESTART", RootCause := "Regular restart pattern - possible memory leak",
        Actions := ["CHECK_MEMORY_LEAK", "MONITOR_RESOURCES", "CHECK_LOGS"] }
  else p

/-- The container exit-reason loop body of `analyzeRestartPattern`.  Note
that the `OOMKilled` branch replaces the action list wholesale while the
exit-code branches only append, and that only `OOMKilled` raises the
severity. -/
def exitStep (p : RestartPattern) (cs : ContainerStatus) : RestartPattern :=
  match cs.LastTermination with
  | none => p
  | some t =>
    let p :=
      if t.ExitCode = 137 then
        { p with
            RootCause := "Container killed by OOM or system",
            Actions := p.Actions ++ ["INCREASE_MEMORY", "CHECK_OOM"] }
      else if t.ExitCode = 143 then
        { p with
            RootCause := "Container gracefully terminated",
            Actions := p.Actions ++ ["CHECK_SHUTDOWN_HOOKS"] }
      else if t.ExitCode = 1 then
        { p with
            RootCause := "Application error exit",
            Actions := p.Actions ++ ["CHECK_APPLICATION_LOGS", "DEBUG_APPLICATION"] }
      else p
    if t.Reason = "OOMKilled" then
      { p with
          RootCause := "Out of Memory killed", Severity := "CRITICAL",
          Actions := ["INCREASE_MEMORY_LIMITS", "CHECK_MEMORY_LEAK", "OPTIMIZE_MEMORY"] }
    else p

/-- `analyzeRestartPattern` from restart_analyzer.go. -/
def analyzeRestartPattern (pod : Pod) : RestartPattern :=
  let totalRestarts := totalRestartsOf pod
  let p : RestartPattern :=
    { PodName := pod.Name, Namespace := pod.Namespace, RestartCount := totalRestarts,
      Pattern := "STABLE", Frequency := "NONE", Severity := "OK",
      RootCause := "No restarts detected", Actions := [] }
  if totalRestarts = 0 then p
  else
    let rate := restartRate totalRestarts pod.AgeHours
    pod.ContainerStatuses.foldl exitStep
      (patternStage totalRestarts pod.AgeHours rate (freqStage rate p))

/-- `AnalyzeRestartPatterns` from restart_analyzer.go: skip system
namespaces, keep patterns with a positive restart count. -/
def analyzeRestartPatterns : List Pod → List RestartPattern
  | [] => []
  | pod :: rest =>
    if sysFiltered pod.Namespace then analyzeRestartPatterns rest
    else
      let pattern := analyzeRestartPattern pod
      if 0 < pattern.RestartCount then pattern :: analyzeRestartPatterns rest
      else analyzeRestartPatterns rest

/-! ## Diagnostics executor (diagnostics.go) -/

/-- `diagnostics.ContainerStats` (the wall-clock timestamp is omitted). -/
structure ContainerStats where
  CPUIOwait : ℚ
  DiskReadMB : ℚ
  DiskWriteMB : ℚ
  NetworkRxMB : ℚ
  NetworkTxMB : ℚ
  ProcessCount : Int
  IsStuck : Bool
deriving DecidableEq

/-- `diagnostics.DiagnosticResult` (the `LastActivity` timestamp is
omitted). -/
structure DiagnosticResult where
  PodName : String
  Namespace : String
  ContainerName : String
  IsStuck : Bool
  StuckReason : String
  Severity : String
  Actions : List String
deriving DecidableEq

/-- Environment for the stuckness analysis.  `getContainerStats` runs
three probe commands and parses their output into a `ContainerStats`; in
the source it never returns an error, so it is modelled as the oracle
`stats` applied to the container coordinates. -/
structure DiagEnv where
  stats : String → String → String → ContainerStats
  exec : String → String → String → String → Option String

/-- The per-container stats history map (a Go map reading as nil when a
key is absent). -/
def HistMap : Type := String → List ContainerStats

/-- `detectStuckContainer` from diagnostics.go, over the most recent three
samples. -/
def detectStuckContainer (history : List ContainerStats) : Bool × String :=
  if history.length < 3 then (false, "")
  else
    let recent := history.drop (history.length - 3)
    if recent.any (·.IsStuck) then
      (true, "Container exec commands failing - container may be unresponsive")
    else if recent.all (fun s => ¬ (s.CPUIOwait < 80)) then
      (true, "Consistently high system load - container may be stuck")
    else if recent.all (fun s => s.ProcessCount ≤ 3) then
      (true, "Very low process count - container may be in minimal state")
    else
      match recent.head? with
      | some f =>
        let l := recent.getLastD f
        if 0 < f.ProcessCount ∧ l.ProcessCount < f.ProcessCount - 3 then
          (true, "Process count decreasing rapidly - application may be failing")
        else (false, "")
      | none => (false, "")

/-- `generateActions` from diagnostics.go. -/
def generateActions (reason : String) : List String :=
  let a0 : List String := []
  let a1 := if containsStr reason "unresponsive" || containsStr reason "failing" then
      a0 ++ ["RESTART_POD", "CHECK_LOGS"] else a0
  let a2 := if containsStr reason "high load" || containsStr reason "stuck" then
      a1 ++ ["RESTART_POD", "CHECK_RESOURCES"] else a1
  let a3 := if containsStr reason "process count" then
      a2 ++ ["RESTART_POD", "INVESTIGATE_APP"] else a2
  if containsStr reason "minimal state" then a3 ++ ["CHECK_HEALTH", "MONITOR_CLOSELY"] else a3

/-- `analyzeContainer` from diagnostics.go: record the stats sample in the
bounded (≤ 10) per-container ring, then run the stuckness heuristic once
at least three samples exist. -/
def analyzeContainer (env : DiagEnv) (hist : HistMap)
    (nsp podName containerName : String) : DiagnosticResult × HistMap :=
  let base : DiagnosticResult :=
    { PodName := podName, Namespace := nsp, ContainerName := containerName,
      IsStuck := false, StuckReason := "", Severity := "OK", Actions := [] }
  let stats := env.stats nsp podName containerName
  let key := nsp ++ "/" ++ podName ++ "/" ++ containerName
  let h1 := hist key ++ [stats]
  let h2 := if 10 < h1.length then h1.drop 1 else h1
  let hist2 : HistMap := fun k => if k = key then h2 else hist k
  if 3 ≤ h2.length then
    let d := detectStuckContainer h2
    if d.1 then
      ({ base with
          IsStuck := true, StuckReason := d.2, Severity := "CRITICAL",
          Actions := generateActions d.2 }, hist2)
    else (base, hist2)
  else (base, hist2)

/-- The container loop of `DiagnoseStuckContainers` for a single pod. -/
def diagPodContainers (env : DiagEnv) (nsp podName : String) (hist : HistMap) :
    List String → List DiagnosticResult × HistMap
  | [] => ([], hist)
  | c :: cs =>
    let r := analyzeContainer env hist nsp podName c
    let rest := diagPodContainers env nsp podName r.2 cs
    (if r.1.IsStuck then r.1 :: rest.1 else rest.1, rest.2)

/-- `DiagnoseStuckContainers` from diagnostics.go: only Running pods in
non-system namespaces are probed. -/
def diagnoseStuckContainers (env : DiagEnv) (hist : HistMap) :
    List Pod → List DiagnosticResult × HistMap
  | [] => ([], hist)
  | pod :: rest =>
    if pod.Phase ≠ "Running" then diagnoseStuckContainers env hist rest
    else if sysFiltered pod.Namespace then diagnoseStuckContainers env hist rest
    else
      let r1 := diagPodContainers env pod.Namespace pod.Name hist pod.Containers
      let r2 := diagnoseStuckContainers env r1.2 rest
      (r1.1 ++ r2.1, r2.2)

/-! ## Container checks (container_checks.go section of diagnostics) -/

/-- First DNS probe command (internal cluster name). -/
def dnsCmd0 : String :=
  "nslookup kubernetes.default.svc.cluster.local 2>/dev/null | grep \x27Name:\x27 || echo \x27DNS_FAIL\x27"

/-- Second DNS probe command (external name). -/
def dnsCmd1 : String :=
  "nslookup google.com 2>/dev/null | grep \x27Name:\x27 || echo \x27EXTERNAL_DNS_FAIL\x27"

/-- `checkDNS` from diagnostics.go.  Note the loop tests
`strings.Contains(output, "DNS_FAIL")` for both commands, which also
matches the `EXTERNAL_DNS_FAIL` marker of the second command. -/
def checkDNS (env : DiagEnv) (nsp podName containerName : String) : ContainerCheck :=
  let base : ContainerCheck :=
    { CheckName := "DNS Resolution", Status := "OK", Details := "DNS working normally",
      Severity := "LOW", FixActions := [] }
  let internalFail : ContainerCheck :=
    { base with
        Status := "CRITICAL", Details := "Internal Kubernetes DNS resolution failed",
        Severity := "HIGH", FixActions := ["RESTART_POD", "CHECK_DNS_CONFIG", "RESTART_DNS"] }
  let externalFail : ContainerCheck :=
    { base with
        Status := "WARNING", Details := "External DNS resolution failed",
        Severity := "MEDIUM", FixActions := ["CHECK_NETWORK", "CHECK_DNS_SERVERS"] }
  match env.exec nsp podName containerName dnsCmd0 with
  | none => internalFail
  | some out =>
    if containsStr out "DNS_FAIL" then internalFail
    else
      match env.exec nsp podName containerName dnsCmd1 with
      | none => externalFail
      | some out2 => if containsStr out2 "DNS_FAIL" then externalFail else base

/-- The root filesystem usage probe command of `checkDiskSpace`. -/
def diskSpaceCmd : String :=
  "df / 2>/dev/null | tail -1 | awk \x27\x7bprint $5\x7d\x27 | sed \x27s/%//\x27"

/-- `checkDiskSpace` from diagnostics.go. -/
def checkDiskSpace (env : DiagEnv) (nsp podName containerName : String) : ContainerCheck :=
  let check : ContainerCheck :=
    { CheckName := "Disk Space", Status := "OK", Details := "Disk space normal",
      Severity := "LOW", FixActions := [] }
  match env.exec nsp podName containerName diskSpaceCmd with
  | none => { check with Status := "WARNING", Details := "Could not check disk space" }
  | some out =>
    match atoi (trimSpace out) with
    | none => { check with Status := "WARNING", Details := "Invalid disk usage data" }
    | some usage =>
      if 90 < usage then
        { check with
            Status := "CRITICAL",
            Details := "Root filesystem " ++ toString usage ++ " percent full",
            Severity := "HIGH", FixActions := ["CLEANUP_DISK", "RESTART_POD", "SCALE_STORAGE"] }
      else if 80 < usage then
        { check with
            Status := "WARNING",
            Details := "Root filesystem " ++ toString usage ++ " percent full",
            Severity := "MEDIUM", FixActions := ["CLEANUP_DISK", "MONITOR_DISK"] }
      else { check with Details := "Root filesystem " ++ toString usage ++ " percent used" }

/-- The `/tmp` usage probe command of `checkTmpDirectory`. -/
def tmpSpaceCmd : String :=
  "df /tmp 2>/dev/null | tail -1 | awk \x27\x7bprint $5\x7d\x27 | sed \x27s/%//\x27 || echo \x270\x27"

/-- The large-files probe command of `checkTmpDirectory`. -/
def tmpLargeFilesCmd : String :=
  "find /tmp -type f -size +10M 2>/dev/null | wc -l"

/-- `checkTmpDirectory` from diagnostics.go. -/
def checkTmpDirectory (env : DiagEnv) (nsp podName containerName : String) : ContainerCheck :=
  let check : ContainerCheck :=
    { CheckName := "/tmp Directory", Status := "OK", Details := "/tmp directory normal",
      Severity := "LOW", FixActions := [] }
  match env.exec nsp podName containerName tmpSpaceCmd with
  | none => check
  | some out =>
    match atoi (trimSpace out) with
    | none => check
    | some usage =>
      let check :=
        if 95 < usage then
          { check with
              Status := "CRITICAL",
              Details := "/tmp directory " ++ toString usage ++ " percent full",
              Severity := "HIGH", FixActions := ["CLEANUP_TMP", "RESTART_POD"] }
        else if 85 < usage then
          { check with
              Status := "WARNING",
              Details := "/tmp directory " ++ toString usage ++ " percent full",
              Severity := "MEDIUM", FixActions := ["CLEANUP_TMP"] }
        else check
      match env.exec nsp podName containerName tmpLargeFilesCmd with
      | none => check
      | some out2 =>
        match atoi (trimSpace out2) with
        | none => check
        | some largeFiles =>
          if 0 < largeFiles then
            let check := { check with
                            Details := check.Details ++ ", " ++ toString largeFiles ++ " large files found" }
            if check.Status = "OK" then
              { check with Status := "WARNING", FixActions := ["CLEANUP_TMP"] }
            else check
          else check

/-- The internal connectivity probe command of `checkNetworkConnectivity`. -/
def netCmd0 : String :=
  "wget -q --timeout=5 --tries=1 -O /dev/null http://kubernetes.default.svc.cluster.local:443 2>/dev/null && echo \x27OK\x27 || echo \x27FAIL\x27"

/-- The external connectivity probe command of `checkNetworkConnectivity`. -/
def netCmd1 : String :=
  "wget -q --timeout=5 --tries=1 -O /dev/null http://google.com 2>/dev/null && echo \x27OK\x27 || echo \x27FAIL\x27"

/-- `checkNetworkConnectivity` from diagnostics.go. -/
def checkNetworkConnectivity (env : DiagEnv) (nsp podName containerName : String) :
    ContainerCheck :=
  let base : ContainerCheck :=
    { CheckName := "Network Connectivity", Status := "OK",
      Details := "Network connectivity normal", Severity := "LOW", FixActions := [] }
  let warnInternal : ContainerCheck :=
    { base with
        Status := "WARNING", Details := "Internal cluster connectivity issues",
        Severity := "MEDIUM", FixActions := ["CHECK_NETWORK", "RESTART_POD"] }
  let c1 :=
    match env.exec nsp podName containerName netCmd0 with
    | none => warnInternal
    | some out => if containsStr out "FAIL" then warnInternal else base
  let externalIssue (c : ContainerCheck) : ContainerCheck :=
    if c.Status = "OK" then
      { c with
          Status := "WARNING", Details := "External connectivity issues",
          Severity := "LOW", FixActions := ["CHECK_EXTERNAL_NETWORK"] }
    else c
  match env.exec nsp podName containerName netCmd1 with
  | none => externalIssue c1
  | some out2 => if containsStr out2 "FAIL" then externalIssue c1 else c1

/-- `checkContainer` from diagnostics.go: run the four checks in source
order and derive the overall status. -/
def checkContainer (env : DiagEnv) (nsp podName containerName : String) :
    ContainerCheckResult :=
  let checks := [checkDNS env nsp podName containerName,
                 checkDiskSpace env nsp podName containerName,
                 checkTmpDirectory env nsp podName containerName,
                 checkNetworkConnectivity env nsp podName containerName]
  let agg := checks.foldl (fun (s : String × Bool) c =>
    if c.Status = "CRITICAL" then ("CRITICAL", true)
    else if c.Status = "WARNING" ∧ s.1 ≠ "CRITICAL" then ("WARNING", true)
    else s) ("OK", false)
  { PodName := podName, Namespace := nsp, ContainerName := containerName,
    Checks := checks, OverallStatus := agg.1, NeedsAction := agg.2 }

/-- The container loop of `RunContainerChecks` for one pod. -/
def checksForPod (env : DiagEnv) (pod : Pod) : List ContainerCheckResult :=
  pod.Containers.foldr (fun c acc =>
    let r := checkContainer env pod.Namespace pod.Name c
    if r.NeedsAction then r :: acc else acc) []

/-- `RunContainerChecks` from diagnostics.go: only Running pods in
non-system namespaces are checked. -/
def runContainerChecks (env : DiagEnv) : List Pod → List ContainerCheckResult
  | [] => []
  | pod :: rest =>
    if pod.Phase ≠ "Running" then runContainerChecks env rest
    else if sysFiltered pod.Namespace then runContainerChecks env rest
    else checksForPod env pod ++ runContainerChecks env rest

/-! ## Collector (collector.go) -/

/-- The per-pod metrics map assembled from the metrics API: optional CPU
milli-value and memory byte-value per pod key (absent key means no
metrics for that pod). -/
def MetricsMap : Type := String → Option (Option ℚ × Option ℚ)

/-- The per-pod observation assembly inside `GetAllPodMetrics`.  The
`CPUUsage`/`MemUsage` strings carry the quantity `String()` rendering in
Go; the rendering itself is presentation-only and modelled by a marker. -/
def buildPodMetric (mm : MetricsMap) (pod : Pod) : PodMetrics :=
  let restarts := (pod.ContainerStatuses.map (·.RestartCount)).sum
  let base : PodMetrics :=
    { Name := pod.Name, Namespace := pod.Namespace, CPUUsage := "0m", MemUsage := "0Mi",
      CPUPercent := 0, MemPercent := 0, Status := pod.Phase, Restarts := restarts,
      AgeHours := pod.AgeHours, NodeName := pod.NodeName }
  match mm (pod.Namespace ++ "/" ++ pod.Name) with
  | none => base
  | some (cpuQ, memQ) =>
    let b1 := match cpuQ with
      | none => base
      | some cpuMilli => { base with CPUUsage := "cpu-quantity", CPUPercent := cpuMilli / 10 }
    match memQ with
    | none => b1
    | some memBytes =>
      { b1 with
          MemUsage := "mem-quantity",
          MemPercent := memBytes / (1024 * 1024 * 1024) * 100 }

/-- `GetAllPodMetrics` from collector.go: skip system namespaces, join
each remaining pod with its metrics. -/
def getAllPodMetrics (mm : MetricsMap) : List Pod → List PodMetrics
  | [] => []
  | pod :: rest =>
    if sysFiltered pod.Namespace then getAllPodMetrics mm rest
    else buildPodMetric mm pod :: getAllPodMetrics mm rest

/-! ## Concrete inputs used by the witnesses and counterexamples -/

/-- A pod observation with the given usage, status and restart count. -/
def mkObs (cpu mem : ℚ) (st : String) (rs : Int) : PodMetrics :=
  { Name := "p", Namespace := "default", CPUUsage := "0m", MemUsage := "0Mi",
    CPUPercent := cpu, MemPercent := mem, Status := st, Restarts := rs,
    AgeHours := 1, NodeName := "n" }

/-- A pending pod with zero usage and no restarts (claim C1). -/
def obsC1 : PodMetrics := mkObs 0 0 "Pending" 0

/-- A running pod at 5 percent memory (claim C2). -/
def obsC2 : PodMetrics := mkObs 0 5 "Running" 0

/-- Five flat history samples at zero memory: together with `obsC2` they
give a memory slope of 100 percent per hour and a forecast of 0.95 h. -/
def histC2 : List PodMetrics := List.replicate 5 (mkObs 0 0 "Running" 0)

/-- The current observation for the slope counterexample (claim C6). -/
def obsC6 : PodMetrics := mkObs 0 10 "Running" 0

/-- Five flat history samples at zero usage (claim C6). -/
def histC6 : List PodMetrics := List.replicate 5 (mkObs 0 0 "Running" 0)

/-- A pod over both the CPU and the memory CRITICAL thresholds (claim C7). -/
def obsC7 : PodMetrics := mkObs 20 20 "Running" 0

/-- An engine environment whose every call succeeds and returns nothing. -/
def engineEnv0 : EngineEnv :=
  { deployments := fun _ => [], listErr := fun _ => false,
    updateErr := fun _ _ => false, deleteErr := fun _ _ => false,
    eventsErr := fun _ _ => false, eventsOf := fun _ _ => [] }

/-- A prediction carrying the `RESTART_POD` action tag (claim C4). -/
def predRestart : PredictionResult :=
  { PodName := "p", PodNamespace := "default", Risk := "CRITICAL", Issues := [],
    Action := "RESTART_POD", Confidence := 95, Score := 80, TimeToFailure := none,
    Trend := "STABLE", MemoryLeakRate := 0, CPUGrowthRate := 0, PredictionHours := 0 }

/-- An exec environment where every exec succeeds with empty output and
every delete succeeds. -/
def execEnv0 : ExecEnv :=
  { exec := fun _ _ _ _ => some "", deleteErr := fun _ _ => false }

/-- A check report needing action on its container (claims C4 and C5). -/
def crC5 : ContainerCheckResult :=
  { PodName := "p", Namespace := "default", ContainerName := "c", Checks := [],
    OverallStatus := "WARNING", NeedsAction := true }

/-- A failing network connectivity check (claim C5). -/
def checkC5 : ContainerCheck :=
  { CheckName := "Network Connectivity", Status := "WARNING",
    Details := "Internal cluster connectivity issues", Severity := "MEDIUM",
    FixActions := ["CHECK_NETWORK", "RESTART_POD"] }

/-- An exec environment where the ping probe reports `Network FAIL` and
the escalation pod delete fails (claim C5). -/
def envC5 : ExecEnv :=
  { exec := fun _ _ _ cmd =>
      if cmd = networkCommands.getLastD "" then some "Network FAIL" else some "",
    deleteErr := fun _ _ => true }

/-- A live (non-dry-run) auto healer with empty history. -/
def healerLive : AutoHealer := { history := [], dryRun := false }

/-- A dry-run auto healer with empty history (claim C4). -/
def healerDry : AutoHealer := { history := [], dryRun := true }

/-- A /tmp check whose fix tags request a cleanup (claim C4 witness). -/
def checkTmpC4 : ContainerCheck :=
  { CheckName := "/tmp Directory", Status := "CRITICAL",
    Details := "/tmp directory 96 percent full", Severity := "HIGH",
    FixActions := ["CLEANUP_TMP", "RESTART_POD"] }

/-- A check report carrying the /tmp check (claim C4 witness). -/
def crC4 : ContainerCheckResult :=
  { PodName := "p", Namespace := "default", ContainerName := "c",
    Checks := [checkTmpC4], OverallStatus := "CRITICAL", NeedsAction := true }

/-- A pod of age zero with one restart (claim C8). -/
def podC8 : Pod :=
  { Name := "p", Namespace := "default", Phase := "Running",
    ContainerStatuses := [{ RestartCount := 1, LastTermination := none }],
    Containers := ["c"], AgeHours := 0, NodeName := "n" }

/-- A pod whose last termination has exit code 137 but reason `Error`
(claim C9): five restarts over ten hours. -/
def podC9 : Pod :=
  { Name := "p", Namespace := "default", Phase := "Running",
    ContainerStatuses :=
      [{ RestartCount := 5, LastTermination := some { ExitCode := 137, Reason := "Error" } }],
    Containers := ["c"], AgeHours := 10, NodeName := "n" }

/-- A pod whose last termination reason is `OOMKilled` (claim C9 witness). -/
def podC9w : Pod :=
  { Name := "p", Namespace := "default", Phase := "Running",
    ContainerStatuses :=
      [{ RestartCount := 5, LastTermination := some { ExitCode := 137, Reason := "OOMKilled" } }],
    Containers := ["c"], AgeHours := 10, NodeName := "n" }

/-- A single running pod in the `default` namespace (claim C10 witness). -/
def podC10 : Pod :=
  { Name := "p", Namespace := "default", Phase := "Running",
    ContainerStatuses := [{ RestartCount := 1, LastTermination := none }],
    Containers := ["c"], AgeHours := 1, NodeName := "n" }

/-- An empty metrics map (claim C10 witness). -/
def mm0 : MetricsMap := fun _ => none

/-- A diagnostics environment whose probes all fail (claim C10 witness):
failed execs make every container look stuck, so records are emitted. -/
def diagEnv0 : DiagEnv :=
  { stats := fun _ _ _ =>
      { CPUIOwait := 0, DiskReadMB := 0, DiskWriteMB := 0, NetworkRxMB := 0,
        NetworkTxMB := 0, ProcessCount := 0, IsStuck := true },
    exec := fun _ _ _ _ => none }

/-- An empty stats history (claim C10 witness). -/
def hist0 : HistMap := fun _ => []

/-! ## Helper lemmas about the predictor stages -/

theorem finalize_Action (s : PredictionResult × ℚ) : (finalize s).Action = s.1.Action := by
  unfold finalize
  dsimp only
  split_ifs <;> rfl

theorem finalize_TimeToFailure (s : PredictionResult × ℚ) :
    (finalize s).TimeToFailure = s.1.TimeToFailure := by
  unfold finalize
  dsimp only
  split_ifs <;> rfl

theorem finalize_risk_of_ge60 (s : PredictionResult × ℚ) (h : 60 ≤ s.2) :
    (finalize s).Risk = "HIGH" ∨ (finalize s).Risk = "CRITICAL" := by
  unfold finalize
  have hmin : (60 : ℚ) ≤ min s.2 100 := le_min h (by norm_num)
  dsimp only
  split_ifs with h1 h2 <;> simp_all

theorem finalize_risk_of_ge40 (s : PredictionResult × ℚ) (h : 40 ≤ s.2) :
    (finalize s).Risk = "MEDIUM" ∨ (finalize s).Risk = "HIGH" ∨
      (finalize s).Risk = "CRITICAL" := by
  unfold finalize
  have hmin : (40 : ℚ) ≤ min s.2 100 := le_min h (by norm_num)
  dsimp only
  split_ifs with h1 h2 h3 <;> simp_all

theorem stageCPU_score_le (c : PodMetrics) (s : PredictionResult × ℚ) :
    s.2 ≤ (stageCPU c s).2 := by
  unfold stageCPU
  split_ifs <;> simp <;> linarith

theorem stageMem_score_le (c : PodMetrics) (s : PredictionResult × ℚ) :
    s.2 ≤ (stageMem c s).2 := by
  unfold stageMem
  split_ifs <;> simp <;> linarith

theorem trendCPU_score_le (c : PodMetrics) (sl : ℚ) (s : PredictionResult × ℚ) :
    s.2 ≤ (trendCPU c sl s).2 := by
  unfold trendCPU
  dsimp only
  split_ifs <;> simp <;> linarith

theorem trendMem_score_le (c : PodMetrics) (sl : ℚ) (s : PredictionResult × ℚ) :
    s.2 ≤ (trendMem c sl s).2 := by
  unfold trendMem
  dsimp only
  split_ifs <;> simp <;> linarith

theorem stageDegrade_score_le (hist : List PodMetrics) (c : PodMetrics)
    (s : PredictionResult × ℚ) : s.2 ≤ (stageDegrade hist c s).2 := by
  unfold stageDegrade
  dsimp only
  split_ifs <;> simp <;> linarith

theorem stageTrend_snd_eq (c : PodMetrics) (hist : List PodMetrics)
    (s : PredictionResult × ℚ) (h : 5 ≤ hist.length) :
    (stageTrend c hist s).2 =
      (stageDegrade hist c (trendMem c (calculateAdvancedTrend hist c).MemSlope
        (trendCPU c (calculateAdvancedTrend hist c).CPUSlope
          ({ s.1 with
              MemoryLeakRate := (calculateAdvancedTrend hist c).MemSlope,
              CPUGrowthRate := (calculateAdvancedTrend hist c).CPUSlope }, s.2)))).2 := by
  unfold stageTrend
  rw [if_pos h]

theorem stageTrend_score_le (c : PodMetrics) (hist : List PodMetrics)
    (s : PredictionResult × ℚ) : s.2 ≤ (stageTrend c hist s).2 := by
  by_cases h : 5 ≤ hist.length
  · rw [stageTrend_snd_eq c hist s h]
    have h1 := trendCPU_score_le c (calculateAdvancedTrend hist c).CPUSlope
      ({ s.1 with
          MemoryLeakRate := (calculateAdvancedTrend hist c).MemSlope,
          CPUGrowthRate := (calculateAdvancedTrend hist c).CPUSlope }, s.2)
    have h2 := trendMem_score_le c (calculateAdvancedTrend hist c).MemSlope
      (trendCPU c (calculateAdvancedTrend hist c).CPUSlope
        ({ s.1 with
            MemoryLeakRate := (calculateAdvancedTrend hist c).MemSlope,
            CPUGrowthRate := (calculateAdvancedTrend hist c).CPUSlope }, s.2))
    have h3 := stageDegrade_score_le hist c
      (trendMem c (calculateAdvancedTrend hist c).MemSlope
        (trendCPU c (calculateAdvancedTrend hist c).CPUSlope
          ({ s.1 with
              MemoryLeakRate := (calculateAdvancedTrend hist c).MemSlope,
              CPUGrowthRate := (calculateAdvancedTrend hist c).CPUSlope }, s.2)))
    exact le_trans (le_trans h1 h2) h3
  · unfold stageTrend
    rw [if_neg h]

theorem stageRestarts_score_le (c : PodMetrics) (s : PredictionResult × ℚ) :
    s.2 ≤ (stageRestarts c s).2 := by
  unfold stageRestarts
  split_ifs <;> simp <;> linarith

theorem analyzeScore_nonneg (c : PodMetrics) (hist : List PodMetrics) :
    0 ≤ (stageRestarts c (stageTrend c hist (stageMem c (stageCPU c (initResult c, 0))))).2 := by
  have h1 := stageCPU_score_le c (initResult c, 0)
  have h2 := stageMem_score_le c (stageCPU c (initResult c, 0))
  have h3 := stageTrend_score_le c hist (stageMem c (stageCPU c (initResult c, 0)))
  have h4 := stageRestarts_score_le c (stageTrend c hist (stageMem c (stageCPU c (initResult c, 0))))
  simp only at h1 h2 h3 h4
  linarith

theorem stagePhase_of_not_running (c : PodMetrics) (s : PredictionResult × ℚ)
    (h : c.Status ≠ "Running") :
    stagePhase c s =
      ({ s.1 with
          Issues := s.1.Issues ++ ["Pod not running"], Risk := "CRITICAL",
          Action := "RESTART_POD" }, s.2 + 50) := by
  unfold stagePhase
  exact if_pos h

theorem stagePhase_of_running (c : PodMetrics) (s : PredictionResult × ℚ)
    (h : c.Status = "Running") : stagePhase c s = s := by
  unfold stagePhase
  simp [h]

theorem stageRestarts_of_lt (c : PodMetrics) (s : PredictionResult × ℚ)
    (h : c.Restarts < 3) : stageRestarts c s = s := by
  unfold stageRestarts
  rw [if_neg]
  omega

theorem stageRestarts_of_ge (c : PodMetrics) (s : PredictionResult × ℚ)
    (h : 3 ≤ c.Restarts) :
    (stageRestarts c s).1.Action = "INVESTIGATE_RESTARTS" := by
  unfold stageRestarts
  rw [if_pos h]

theorem stageTrend_of_lt5 (c : PodMetrics) (hist : List PodMetrics)
    (s : PredictionResult × ℚ) (h : hist.length < 5) : stageTrend c hist s = s := by
  unfold stageTrend
  rw [if_neg]
  omega

theorem stageMem_action_of_gt15 (c : PodMetrics) (s : PredictionResult × ℚ)
    (h : 15 < c.MemPercent) :
    (stageMem c s).1.Action = "RESTART_POD_URGENT" ∧ (stageMem c s).1.Risk = "CRITICAL" := by
  unfold stageMem
  rw [if_pos h]
  exact ⟨rfl, rfl⟩

/-! ## Claim C1 -/

/-- Claim C1, counterexample: a pending pod with zero usage, zero restarts
and no history satisfies the claim hypothesis (`phase ≠ Running`) but the
emitted prediction has final risk `MEDIUM`, not `CRITICAL`: the phase rule
contributes only +50 score and the finalization re-derives risk from the
50-point score band. -/
theorem c1_phase_critical_counterexample :
    obsC1.Status ≠ "Running" ∧ (analyzePodAdvanced obsC1 []).Risk = "MEDIUM" := by
  constructor
  · decide
  · norm_num +decide [analyzePodAdvanced, stagePhase, stageRestarts, stageTrend,
      stageMem, stageCPU, initResult, finalize, obsC1, mkObs]

/-- Claim C1, amended: a pod with `phase ≠ Running` receives +50 score and
pre-finalization risk CRITICAL, but after the score-band finalization the
emitted risk is only guaranteed to be at least MEDIUM (it is CRITICAL
exactly when the total score reaches 80). -/
theorem c1_phase_critical_amended (obs : PodMetrics) (hist : List PodMetrics)
    (h : obs.Status ≠ "Running") :
    (analyzePodAdvanced obs hist).Risk = "MEDIUM" ∨
      (analyzePodAdvanced obs hist).Risk = "HIGH" ∨
      (analyzePodAdvanced obs hist).Risk = "CRITICAL" := by
  unfold analyzePodAdvanced
  rw [stagePhase_of_not_running obs _ h]
  apply finalize_risk_of_ge40
  have := analyzeScore_nonneg obs hist
  simp only
  linarith

/-- Witness for `c1_phase_critical_amended` at the concrete pending pod. -/
theorem c1_phase_critical_amended_witness :
    (analyzePodAdvanced obsC1 []).Risk = "MEDIUM" ∨
      (analyzePodAdvanced obsC1 []).Risk = "HIGH" ∨
      (analyzePodAdvanced obsC1 []).Risk = "CRITICAL" :=
  c1_phase_critical_amended obsC1 [] (by decide)

/-! ## Claim C6 -/

/-- Claim C6, counterexample: with 5 history samples at 0 percent memory
and a current observation at 10 percent, the code computes a memory slope
of 200 percent per hour, whereas the claimed formula
`(latest - oldest) / (history_len * 30 s / 3600)` gives
`10 / (5 * 30 / 3600) = 240`: the divisor actually uses
`history_len + 1` samples, counting the current observation. -/
theorem c6_slope_counterexample :
    calculateSlope histC6 obsC6 "memory" = 200 ∧
      (obsC6.MemPercent - 0) / (((5 : ℚ) * 30) / 3600) = 240 := by
  constructor
  · norm_num +decide [calculateSlope, histC6, obsC6, mkObs, List.replicate]
  · norm_num [obsC6, mkObs]

/-- Claim C6, amended: for a history of at least 5 samples, both the CPU
and the memory slope equal `(latest - oldest) / elapsed_hours` where
`elapsed_hours = (history_len + 1) * 30 s / 3600` - the sample count
includes the current observation appended to the history - identically
for both resources. -/
theorem c6_slope_amended (history : List PodMetrics) (current h0 : PodMetrics)
    (h5 : 5 ≤ history.length) (hh : history.head? = some h0) :
    calculateSlope history current "cpu" =
      (current.CPUPercent - h0.CPUPercent) / (((history.length : ℚ) + 1) * 30 / 3600) ∧
    calculateSlope history current "memory" =
      (current.MemPercent - h0.MemPercent) / (((history.length : ℚ) + 1) * 30 / 3600) := by
  obtain ⟨t, rfl⟩ : ∃ t, history = h0 :: t := by
    cases history with
    | nil => simp at hh
    | cons a t =>
      simp only [List.head?_cons, Option.some.injEq] at hh
      exact ⟨t, by rw [hh]⟩
  have hlen : ¬ (h0 :: t).length < 2 := by
    simp only [List.length_cons] at h5 ⊢
    omega
  constructor <;>
  · unfold calculateSlope
    rw [if_neg hlen]
    simp +decide only [List.map_cons, List.cons_append, List.head?_cons, Option.getD_some,
      List.getLast?_concat, List.length_cons, List.length_append, List.length_map,
      List.length_singleton, if_true, if_false]
    rw [if_pos (by omega), ← List.cons_append, List.getLast?_concat, Option.getD_some]
    push_cast
    ring_nf

/-- Witness for `c6_slope_amended` at the concrete five-sample history. -/
theorem c6_slope_amended_witness :
    calculateSlope histC6 obsC6 "cpu" =
      (obsC6.CPUPercent - (mkObs 0 0 "Running" 0).CPUPercent) / (((histC6.length : ℚ) + 1) * 30 / 3600) ∧
    calculateSlope histC6 obsC6 "memory" =
      (obsC6.MemPercent - (mkObs 0 0 "Running" 0).MemPercent) / (((histC6.length : ℚ) + 1) * 30 / 3600) :=
  c6_slope_amended histC6 obsC6 (mkObs 0 0 "Running" 0) (by decide)
    (by norm_num [histC6, List.replicate])

/-! ## Claim C7 -/

/-- Claim C7, counterexample: with CPU and memory both above the CRITICAL
thresholds (20 percent each), the emitted action is the memory rule tag
`RESTART_POD_URGENT`, not the CPU rule tag `SCALE_UP_URGENT` demanded by
the claimed CPU-first tie-breaking order: later rules overwrite earlier
ones. -/
theorem c7_priority_counterexample :
    15 < obsC7.CPUPercent ∧ 15 < obsC7.MemPercent ∧
      (analyzePodAdvanced obsC7 []).Action = "RESTART_POD_URGENT" ∧
      (analyzePodAdvanced obsC7 []).Action ≠ "SCALE_UP_URGENT" := by
  refine ⟨by norm_num [obsC7, mkObs], by norm_num [obsC7, mkObs], ?_, ?_⟩ <;>
    norm_num +decide [analyzePodAdvanced, stagePhase, stageRestarts, stageTrend,
      stageMem, stageCPU, initResult, finalize, obsC7, mkObs]

/-- Claim C7, amended: when several rules trigger, the action tag of the
rule evaluated last in source order wins (CPU thresholds, then memory
thresholds, then trend forecasts, then restart count, then phase), each
later triggered rule overwriting the tag of earlier ones.  In particular
`phase ≠ Running` always forces `RESTART_POD`; with phase Running,
`restart_count ≥ 3` forces `INVESTIGATE_RESTARTS`; and with neither of
those and no trend stage, `mem_percent > 15` forces `RESTART_POD_URGENT`
even when the CPU rule also triggered. -/
theorem c7_priority_amended (obs : PodMetrics) (hist : List PodMetrics) :
    (obs.Status ≠ "Running" → (analyzePodAdvanced obs hist).Action = "RESTART_POD") ∧
    (obs.Status = "Running" → 3 ≤ obs.Restarts →
      (analyzePodAdvanced obs hist).Action = "INVESTIGATE_RESTARTS") ∧
    (obs.Status = "Running" → obs.Restarts < 3 → hist.length < 5 → 15 < obs.MemPercent →
      (analyzePodAdvanced obs hist).Action = "RESTART_POD_URGENT") := by
  refine ⟨fun h => ?_, fun hs hr => ?_, fun hs hr hl hm => ?_⟩
  · unfold analyzePodAdvanced
    rw [finalize_Action, stagePhase_of_not_running obs _ h]
  · unfold analyzePodAdvanced
    rw [finalize_Action, stagePhase_of_running obs _ hs]
    exact stageRestarts_of_ge obs _ hr
  · unfold analyzePodAdvanced
    rw [finalize_Action, stagePhase_of_running obs _ hs, stageRestarts_of_lt obs _ hr,
      stageTrend_of_lt5 obs hist _ hl]
    exact (stageMem_action_of_gt15 obs _ hm).1

/-- Witness for `c7_priority_amended` at the concrete double-threshold
observation: the memory tag wins. -/
theorem c7_priority_amended_witness :
    (analyzePodAdvanced obsC7 []).Action = "RESTART_POD_URGENT" :=
  (c7_priority_amended obsC7 []).2.2 (by decide) (by decide) (by decide)
    (by norm_num [obsC7, mkObs])

/-! ## Helper lemmas tracking the time-to-failure field -/

theorem stageCPU_TTF (c : PodMetrics) (s : PredictionResult × ℚ) :
    (stageCPU c s).1.TimeToFailure = s.1.TimeToFailure := by
  unfold stageCPU
  split_ifs <;> rfl

theorem stageMem_TTF (c : PodMetrics) (s : PredictionResult × ℚ) :
    (stageMem c s).1.TimeToFailure = s.1.TimeToFailure := by
  unfold stageMem
  split_ifs <;> rfl

theorem stageDegrade_TTF (hist : List PodMetrics) (c : PodMetrics)
    (s : PredictionResult × ℚ) :
    (stageDegrade hist c s).1.TimeToFailure = s.1.TimeToFailure := by
  unfold stageDegrade
  dsimp only
  split_ifs <;> rfl

theorem stageDegrade_keep (hist : List PodMetrics) (c : PodMetrics)
    (s : PredictionResult × ℚ) (h : s.1.Risk ≠ "LOW") :
    (stageDegrade hist c s).1.Action = s.1.Action ∧
      (stageDegrade hist c s).1.Risk = s.1.Risk := by
  unfold stageDegrade
  dsimp only
  split_ifs with h1
  · exact ⟨rfl, rfl⟩
  · exact ⟨rfl, rfl⟩

theorem trendLabel_Action (a b : ℚ) (r : PredictionResult) :
    (trendLabel a b r).Action = r.Action := by
  unfold trendLabel
  split_ifs <;> rfl

theorem trendLabel_Risk (a b : ℚ) (r : PredictionResult) :
    (trendLabel a b r).Risk = r.Risk := by
  unfold trendLabel
  split_ifs <;> rfl

theorem trendLabel_TTF (a b : ℚ) (r : PredictionResult) :
    (trendLabel a b r).TimeToFailure = r.TimeToFailure := by
  unfold trendLabel
  split_ifs <;> rfl

theorem stageRestarts_TTF (c : PodMetrics) (s : PredictionResult × ℚ) :
    (stageRestarts c s).1.TimeToFailure = s.1.TimeToFailure := by
  unfold stageRestarts
  split_ifs <;> rfl

theorem trendCPU_TTF (c : PodMetrics) (sl : ℚ) (s : PredictionResult × ℚ) :
    (trendCPU c sl s).1.TimeToFailure = s.1.TimeToFailure ∨
      ∃ q : ℚ, (trendCPU c sl s).1.TimeToFailure = some (q, "CPU overload") := by
  unfold trendCPU
  dsimp only
  split_ifs
  · exact Or.inr ⟨(100 - c.CPUPercent) / sl, rfl⟩
  · exact Or.inr ⟨(100 - c.CPUPercent) / sl, rfl⟩
  · exact Or.inl rfl
  · exact Or.inl rfl

theorem trendMem_spec (c : PodMetrics) (sl : ℚ) (s : PredictionResult × ℚ)
    (hin : ∀ q : ℚ, s.1.TimeToFailure ≠ some (q, "Memory leak")) (h : ℚ)
    (hout : (trendMem c sl s).1.TimeToFailure = some (h, "Memory leak"))
    (hlt : h < 12) :
    (trendMem c sl s).1.Action = "RESTART_POD_URGENT" ∧
      (trendMem c sl s).1.Risk = "CRITICAL" ∧
      (trendMem c sl s).2 = s.2 + 35 + 25 := by
  unfold trendMem at hout ⊢
  dsimp only at hout ⊢
  split_ifs at hout ⊢ with h1 h2 h3 h4
  · exact ⟨rfl, rfl, rfl⟩
  · simp only [Option.some.injEq, Prod.mk.injEq] at hout
    rw [hout.1] at h3
    exact absurd hlt h3
  · simp only [Option.some.injEq, Prod.mk.injEq] at hout
    rw [hout.1] at h3
    exact absurd hlt h3
  · exact absurd hout (hin h)
  · exact absurd hout (hin h)

/-- The equation of the trend stage on histories with at least 5 samples. -/
theorem stageTrend_eq (c : PodMetrics) (hist : List PodMetrics)
    (s : PredictionResult × ℚ) (h : 5 ≤ hist.length) :
    stageTrend c hist s =
      (trendLabel (calculateAdvancedTrend hist c).CPUSlope
        (calculateAdvancedTrend hist c).MemSlope
        (stageDegrade hist c (trendMem c (calculateAdvancedTrend hist c).MemSlope
          (trendCPU c (calculateAdvancedTrend hist c).CPUSlope
            ({ s.1 with
                MemoryLeakRate := (calculateAdvancedTrend hist c).MemSlope,
                CPUGrowthRate := (calculateAdvancedTrend hist c).CPUSlope }, s.2)))).1,
       (stageDegrade hist c (trendMem c (calculateAdvancedTrend hist c).MemSlope
          (trendCPU c (calculateAdvancedTrend hist c).CPUSlope
            ({ s.1 with
                MemoryLeakRate := (calculateAdvancedTrend hist c).MemSlope,
                CPUGrowthRate := (calculateAdvancedTrend hist c).CPUSlope }, s.2)))).2) := by
  unfold stageTrend
  rw [if_pos h]

/-- Behaviour of the whole trend stage when it emits a memory-cause
forecast under 12 hours from an input without one: the action becomes
`RESTART_POD_URGENT`, the pre-finalization risk CRITICAL, and the score
grows by at least 60. -/
theorem stageTrend_memleak_spec (c : PodMetrics) (hist : List PodMetrics)
    (s : PredictionResult × ℚ) (hnone : s.1.TimeToFailure = none) (h : ℚ)
    (h5 : 5 ≤ hist.length)
    (hf : (stageTrend c hist s).1.TimeToFailure = some (h, "Memory leak"))
    (hlt : h < 12) :
    (stageTrend c hist s).1.Action = "RESTART_POD_URGENT" ∧
      (stageTrend c hist s).1.Risk = "CRITICAL" ∧
      s.2 + 60 ≤ (stageTrend c hist s).2 := by
  rw [stageTrend_eq c hist s h5] at hf ⊢
  simp only at hf ⊢
  rw [trendLabel_TTF, stageDegrade_TTF] at hf
  have hin : ∀ q : ℚ,
      (trendCPU c (calculateAdvancedTrend hist c).CPUSlope
        ({ s.1 with
            MemoryLeakRate := (calculateAdvancedTrend hist c).MemSlope,
            CPUGrowthRate := (calculateAdvancedTrend hist c).CPUSlope }, s.2)).1.TimeToFailure
        ≠ some (q, "Memory leak") := by
    intro q
    rcases trendCPU_TTF c (calculateAdvancedTrend hist c).CPUSlope
      ({ s.1 with
          MemoryLeakRate := (calculateAdvancedTrend hist c).MemSlope,
          CPUGrowthRate := (calculateAdvancedTrend hist c).CPUSlope }, s.2) with hP | ⟨q2, hP⟩
    · rw [hP]
      show s.1.TimeToFailure ≠ some (q, "Memory leak")
      rw [hnone]
      simp
    · rw [hP]
      simp
  obtain ⟨hA, hR, hSc⟩ := trendMem_spec c (calculateAdvancedTrend hist c).MemSlope
    (trendCPU c (calculateAdvancedTrend hist c).CPUSlope
      ({ s.1 with
          MemoryLeakRate := (calculateAdvancedTrend hist c).MemSlope,
          CPUGrowthRate := (calculateAdvancedTrend hist c).CPUSlope }, s.2)) hin h hf hlt
  have hkeep := stageDegrade_keep hist c
    (trendMem c (calculateAdvancedTrend hist c).MemSlope
      (trendCPU c (calculateAdvancedTrend hist c).CPUSlope
        ({ s.1 with
            MemoryLeakRate := (calculateAdvancedTrend hist c).MemSlope,
            CPUGrowthRate := (calculateAdvancedTrend hist c).CPUSlope }, s.2)))
    (by rw [hR]; decide)
  have hscore := stageDegrade_score_le hist c
    (trendMem c (calculateAdvancedTrend hist c).MemSlope
      (trendCPU c (calculateAdvancedTrend hist c).CPUSlope
        ({ s.1 with
            MemoryLeakRate := (calculateAdvancedTrend hist c).MemSlope,
            CPUGrowthRate := (calculateAdvancedTrend hist c).CPUSlope }, s.2)))
  have hcpu := trendCPU_score_le c (calculateAdvancedTrend hist c).CPUSlope
    ({ s.1 with
        MemoryLeakRate := (calculateAdvancedTrend hist c).MemSlope,
        CPUGrowthRate := (calculateAdvancedTrend hist c).CPUSlope }, s.2)
  refine ⟨?_, ?_, ?_⟩
  · rw [trendLabel_Action, hkeep.1, hA]
  · rw [trendLabel_Risk, hkeep.2, hR]
  · simp only at hcpu
    rw [hSc] at hscore
    linarith

/-! ## Claim C2 -/

/-- Claim C2, counterexample: five flat history samples at 0 percent
memory followed by a current observation at 5 percent give a memory slope
of 100 percent per hour and a memory-cause time-to-failure of 0.95 h
(< 12), yet the emitted final risk is `HIGH`, not `CRITICAL`: the rule
contributes only 35 + 25 = 60 score, which the finalization maps to the
HIGH band (the action is still `RESTART_POD_URGENT`). -/
theorem c2_memleak_urgent_counterexample :
    (analyzePodAdvanced obsC2 histC2).TimeToFailure = some (19/20, "Memory leak") ∧
      (19 : ℚ)/20 < 12 ∧
      (analyzePodAdvanced obsC2 histC2).Action = "RESTART_POD_URGENT" ∧
      (analyzePodAdvanced obsC2 histC2).Risk = "HIGH" := by
  refine ⟨?_, by norm_num, ?_, ?_⟩ <;>
    norm_num +decide [analyzePodAdvanced, stagePhase, stageRestarts, stageTrend,
      stageMem, stageCPU, initResult, finalize, obsC2, histC2, mkObs,
      calculateAdvancedTrend, calculateSlope, trendCPU, trendMem, stageDegrade,
      trendLabel, detectPerformanceDegradation, countIncreases, List.replicate]

/-- Claim C2, amended: whenever the predictor emits a memory-cause
time-to-failure below 12 hours, the prediction's action is
`RESTART_POD_URGENT` (provided no later rule overwrites it, i.e.
`restart_count < 3` and phase Running) and its final risk is at least
HIGH - HIGH or CRITICAL - with CRITICAL exactly when the total score
reaches 80. -/
theorem c2_memleak_urgent_amended (obs : PodMetrics) (hist : List PodMetrics)
    (h : ℚ)
    (hf : (analyzePodAdvanced obs hist).TimeToFailure = some (h, "Memory leak"))
    (hlt : h < 12) (hr : obs.Restarts < 3) (hs : obs.Status = "Running") :
    (analyzePodAdvanced obs hist).Action = "RESTART_POD_URGENT" ∧
      ((analyzePodAdvanced obs hist).Risk = "HIGH" ∨
        (analyzePodAdvanced obs hist).Risk = "CRITICAL") := by
  unfold analyzePodAdvanced at hf ⊢
  rw [stagePhase_of_running obs _ hs, stageRestarts_of_lt obs _ hr] at hf ⊢
  rw [finalize_TimeToFailure] at hf
  by_cases h5 : 5 ≤ hist.length
  · have hnone : (stageMem obs (stageCPU obs (initResult obs, 0))).1.TimeToFailure = none := by
      rw [stageMem_TTF, stageCPU_TTF]
      rfl
    obtain ⟨hA, hR, hSc⟩ := stageTrend_memleak_spec obs hist
      (stageMem obs (stageCPU obs (initResult obs, 0))) hnone h h5 hf hlt
    constructor
    · rw [finalize_Action, hA]
    · apply finalize_risk_of_ge60
      have h1 := stageCPU_score_le obs (initResult obs, 0)
      have h2 := stageMem_score_le obs (stageCPU obs (initResult obs, 0))
      simp only at h1 h2
      linarith
  · rw [stageTrend_of_lt5 obs hist _ (by omega), stageMem_TTF, stageCPU_TTF] at hf
    exact absurd hf (by simp [initResult])

/-- Witness for `c2_memleak_urgent_amended` at the concrete leak input. -/
theorem c2_memleak_urgent_amended_witness :
    (analyzePodAdvanced obsC2 histC2).Action = "RESTART_POD_URGENT" ∧
      ((analyzePodAdvanced obsC2 histC2).Risk = "HIGH" ∨
        (analyzePodAdvanced obsC2 histC2).Risk = "CRITICAL") :=
  c2_memleak_urgent_amended obsC2 histC2 (19/20)
    (by norm_num +decide [analyzePodAdvanced, stagePhase, stageRestarts, stageTrend,
      stageMem, stageCPU, initResult, finalize, obsC2, histC2, mkObs,
      calculateAdvancedTrend, calculateSlope, trendCPU, trendMem, stageDegrade,
      trendLabel, detectPerformanceDegradation, countIncreases, List.replicate])
    (by norm_num) (by decide) (by decide)

/-! ## Helper lemmas about the action engine counters -/

theorem countKey_cons (k key tag : String) (d : List (String × String)) :
    countKey k ((key, tag) :: d) = (if key = k then 1 else 0) + countKey k d := by
  by_cases hk : key = k
  · simp [countKey, List.filter_cons, hk]
    omega
  · simp [countKey, List.filter_cons, hk]

theorem countKey_append (k : String) (d1 d2 : List (String × String)) :
    countKey k (d1 ++ d2) = countKey k d1 + countKey k d2 := by
  simp [countKey, List.filter_append]

theorem execLoop_spec (env : EngineEnv) (preds : List PredictionResult) :
    ∀ (a : ActionEngine) (k : String),
      (execLoop env a preds).1.actionCounts k =
        a.actionCounts k + countKey k (execLoop env a preds).2.2 ∧
      (a.actionCounts k ≤ 3 → (execLoop env a preds).1.actionCounts k ≤ 3) := by
  induction preds with
  | nil =>
    intro a k
    simp [execLoop, countKey]
  | cons pred rest ih =>
    intro a k
    unfold execLoop
    dsimp only
    split_ifs with hc
    · exact ih a k
    · obtain ⟨ih1, ih2⟩ := ih
        { a with actionCounts := fun k2 => if k2 = podKeyOf pred then a.actionCounts k2 + 1 else a.actionCounts k2 } k
    
      rw [countKey_cons]
      constructor
      · rw [ih1]
        dsimp only
        by_cases hk : k = podKeyOf pred
        · rw [if_pos hk, if_pos hk.symm]
          omega
        · rw [if_neg hk, if_neg (fun hh => hk hh.symm)]
          omega
      · intro hle
        apply ih2
        dsimp only
        by_cases hk : k = podKeyOf pred
        · rw [if_pos hk, hk]
          omega
        · rw [if_neg hk]
          exact hle

theorem executeActions_spec (a : ActionEngine) (env : EngineEnv)
    (preds : List PredictionResult) (k : String) :
    (executeActions a env preds).1.actionCounts k =
      a.actionCounts k + countKey k (executeActions a env preds).2.2 ∧
    (a.actionCounts k ≤ 3 → (executeActions a env preds).1.actionCounts k ≤ 3) := by
  unfold executeActions
  dsimp only
  split_ifs with he
  · simp [countKey]
  · exact execLoop_spec env preds a k

theorem runBatches_spec (env : EngineEnv) (batches : List (List PredictionResult)) :
    ∀ (a : ActionEngine) (k : String),
      (runBatches env a batches).1.actionCounts k =
        a.actionCounts k + countKey k (runBatches env a batches).2 ∧
      (a.actionCounts k ≤ 3 → (runBatches env a batches).1.actionCounts k ≤ 3) := by
  induction batches with
  | nil =>
    intro a k
    simp [runBatches, countKey]
  | cons batch rest ih =>
    intro a k
    unfold runBatches
    dsimp only
    obtain ⟨e1, e2⟩ := executeActions_spec a env batch k
    obtain ⟨i1, i2⟩ := ih (executeActions a env batch).1 k
    constructor
    · rw [i1, e1, countKey_append]
      omega
    · intro hle
      exact i2 (e2 hle)

/-! ## Claim C3 -/

/-- Claim C3: over any sequence of `ExecuteActions` calls starting from a
fresh engine, adversarial environment and predictions included, at most 3
actions are ever dispatched against any single pod key - a prediction
whose key has counter at least 3 is skipped without dispatching - and the
per-key counter always equals the number of non-skipped dispatches
recorded against that key, whatever the action tags (monitor-only and
unrecognized tags included) and whatever the dispatch outcomes, because
the counter increment after the dispatch switch is unconditional. -/
theorem c3_action_cap (dry : Bool) (env : EngineEnv)
    (batches : List (List PredictionResult)) (k : String) :
    countKey k (runBatches env (engineNew dry) batches).2 ≤ 3 ∧
    (runBatches env (engineNew dry) batches).1.actionCounts k =
      countKey k (runBatches env (engineNew dry) batches).2 := by
  obtain ⟨h1, h2⟩ := runBatches_spec env batches (engineNew dry) k
  have h0 : (engineNew dry).actionCounts k = 0 := rfl
  rw [h0] at h1
  have h3 := h2 (by rw [h0]; omega)
  rw [h1] at h3
  exact ⟨by omega, by omega⟩

/-! ## Helper lemmas about dry-run behaviour -/

theorem scaleUpDeployment_dry (a : ActionEngine) (env : EngineEnv)
    (pred : PredictionResult) (hd : a.dryRun = true) :
    scaleUpDeployment a env pred = [EngineEffect.print "[DRY RUN] Would scale UP deployment"] := by
  unfold scaleUpDeployment
  rw [if_pos hd]

theorem restartPod_dry (a : ActionEngine) (env : EngineEnv)
    (pred : PredictionResult) (hd : a.dryRun = true) :
    restartPod a env pred = [EngineEffect.print "[DRY RUN] Would restart pod"] := by
  unfold restartPod
  rw [if_pos hd]

theorem investigatePod_safe (a : ActionEngine) (env : EngineEnv)
    (pred : PredictionResult) :
    ∀ e ∈ investigatePod a env pred, e.isMutatingCall = false := by
  intro e he
  unfold investigatePod at he
  rcases List.mem_append.1 he with h1 | h2
  · rcases List.mem_append.1 h1 with h3 | h4
    · simp only [List.mem_cons, List.not_mem_nil, or_false] at h3
      rcases h3 with rfl | rfl <;> rfl
    · split at h4
      · obtain ⟨ev, _, rfl⟩ := List.mem_map.1 h4
        rfl
      · exact absurd h4 (List.not_mem_nil e)
  · simp only [List.mem_cons, List.not_mem_nil, or_false] at h2
    rw [h2]
    rfl

theorem monitorPod_safe (a : ActionEngine) (pred : PredictionResult) :
    ∀ e ∈ monitorPod a pred, e.isMutatingCall = false := by
  intro e he
  unfold monitorPod at he
  simp only [List.mem_cons, List.not_mem_nil, or_false] at he
  rcases he with rfl | rfl <;> rfl

theorem dispatchPred_dry_safe (a : ActionEngine) (env : EngineEnv)
    (pred : PredictionResult) (hd : a.dryRun = true) :
    ∀ e ∈ dispatchPred a env pred, e.isMutatingCall = false := by
  intro e he
  unfold dispatchPred at he
  split_ifs at he
  · rw [scaleUpDeployment_dry a env pred hd] at he
    simp only [List.mem_cons, List.not_mem_nil, or_false] at he
    rw [he]; rfl
  · rw [scaleUpDeployment_dry a env pred hd] at he
    simp only [List.mem_cons, List.not_mem_nil, or_false] at he
    rw [he]; rfl
  · rw [restartPod_dry a env pred hd] at he
    simp only [List.mem_cons, List.not_mem_nil, or_false] at he
    rw [he]; rfl
  · rw [restartPod_dry a env pred hd] at he
    simp only [List.mem_cons, List.not_mem_nil, or_false] at he
    rw [he]; rfl
  · exact investigatePod_safe a env pred e he
  · exact monitorPod_safe a pred e he
  · simp only [List.mem_cons, List.not_mem_nil, or_false] at he
    rw [he]; rfl

theorem execLoop_dry_safe (env : EngineEnv) (preds : List PredictionResult) :
    ∀ (a : ActionEngine), a.dryRun = true →
      ∀ e ∈ (execLoop env a preds).2.1, e.isMutatingCall = false := by
  induction preds with
  | nil =>
    intro a _ e he
    simp [execLoop] at he
  | cons pred rest ih =>
    intro a hd e he
    unfold execLoop at he
    dsimp only at he
    split_ifs at he with hc
    · rcases List.mem_cons.1 he with rfl | he2
      · rfl
      · exact ih a hd e he2
    · rcases List.mem_append.1 he with h1 | h2
      · exact dispatchPred_dry_safe a env pred hd e h1
      · exact ih
          { a with actionCounts := fun k => if k = podKeyOf pred then a.actionCounts k + 1 else a.actionCounts k }
          hd e h2

theorem executeActions_dry_safe (a : ActionEngine) (env : EngineEnv)
    (preds : List PredictionResult) (hd : a.dryRun = true) :
    ∀ e ∈ (executeActions a env preds).2.1, e.isMutatingCall = false := by
  intro e he
  unfold executeActions at he
  dsimp only at he
  split_ifs at he with hemp
  · simp at he
  · rcases List.mem_cons.1 he with rfl | he2
    · rfl
    · rcases List.mem_append.1 he2 with h1 | h3
      · exact execLoop_dry_safe env preds a hd e h1
      · simp only [List.mem_cons, List.not_mem_nil, or_false] at h3
        rw [h3]; rfl

theorem cleanupTmpDirectory_dry (h : AutoHealer) (env : ExecEnv)
    (cr : ContainerCheckResult) (check : ContainerCheck) (hd : h.dryRun = true) :
    (cleanupTmpDirectory h env cr check).1.Status = "DRY_RUN" ∧
      (cleanupTmpDirectory h env cr check).2 = [] := by
  unfold cleanupTmpDirectory
  rw [if_pos hd]
  exact ⟨rfl, rfl⟩

theorem cleanupDiskSpace_dry (h : AutoHealer) (env : ExecEnv)
    (cr : ContainerCheckResult) (check : ContainerCheck) (hd : h.dryRun = true) :
    (cleanupDiskSpace h env cr check).1.Status = "DRY_RUN" ∧
      (cleanupDiskSpace h env cr check).2 = [] := by
  unfold cleanupDiskSpace
  rw [if_pos hd]
  exact ⟨rfl, rfl⟩

theorem fixNetworkConnectivity_dry (h : AutoHealer) (env : ExecEnv)
    (cr : ContainerCheckResult) (check : ContainerCheck) (hd : h.dryRun = true) :
    (fixNetworkConnectivity h env cr check).1.Status = "DRY_RUN" ∧
      (fixNetworkConnectivity h env cr check).2 = [] := by
  unfold fixNetworkConnectivity
  rw [if_pos hd]
  exact ⟨rfl, rfl⟩

theorem fixDNSResolution_dry (h : AutoHealer) (env : ExecEnv)
    (cr : ContainerCheckResult) (check : ContainerCheck) (hd : h.dryRun = true) :
    (fixDNSResolution h env cr check).1.Status = "DRY_RUN" ∧
      (fixDNSResolution h env cr check).2 = [] := by
  unfold fixDNSResolution
  rw [if_pos hd]
  exact ⟨rfl, rfl⟩

theorem healOne_dry (h : AutoHealer) (env : ExecEnv) (cr : ContainerCheckResult)
    (check : ContainerCheck) (hd : h.dryRun = true) :
    ∀ ac, healOne h env cr check = some ac → ac.1.Status = "DRY_RUN" ∧ ac.2 = [] := by
  intro ac hac
  unfold healOne at hac
  split_ifs at hac
  · injection hac with h1
    subst h1
    exact cleanupTmpDirectory_dry h env cr check hd
  · injection hac with h1
    subst h1
    exact cleanupDiskSpace_dry h env cr check hd
  · injection hac with h1
    subst h1
    exact fixNetworkConnectivity_dry h env cr check hd
  · injection hac with h1
    subst h1
    exact fixDNSResolution_dry h env cr check hd

theorem healChecksFor_dry (h : AutoHealer) (env : ExecEnv)
    (cr : ContainerCheckResult) (hd : h.dryRun = true) :
    ∀ (checks : List ContainerCheck) (p : HealingAction × List ClusterCall),
      p ∈ healChecksFor h env cr checks → p.1.Status = "DRY_RUN" ∧ p.2 = [] := by
  intro checks
  induction checks with
  | nil =>
    intro p hp
    simp [healChecksFor] at hp
  | cons check rest ih =>
    intro p hp
    unfold healChecksFor at hp
    split_ifs at hp
    · exact ih p hp
    · revert hp
      cases hm : healOne h env cr check with
      | none =>
        intro hp
        exact ih p hp
      | some ac =>
        intro hp
        rcases List.mem_cons.1 hp with rfl | hp2
        · exact healOne_dry h env cr check hd p hm
        · exact ih p hp2

theorem healAll_dry (h : AutoHealer) (env : ExecEnv) (hd : h.dryRun = true) :
    ∀ (checks : List ContainerCheckResult) (p : HealingAction × List ClusterCall),
      p ∈ healAll h env checks → p.1.Status = "DRY_RUN" ∧ p.2 = [] := by
  intro checks
  induction checks with
  | nil =>
    intro p hp
    simp [healAll] at hp
  | cons cr rest ih =>
    intro p hp
    unfold healAll at hp
    split_ifs at hp
    · exact ih p hp
    · rcases List.mem_append.1 hp with h1 | h2
      · exact healChecksFor_dry h env cr hd cr.Checks p h1
      · exact ih p h2

theorem healContainerIssues_dry (h : AutoHealer) (env : ExecEnv)
    (checks : List ContainerCheckResult) (hd : h.dryRun = true) :
    (∀ act ∈ (healContainerIssues h env checks).2.1, act.Status = "DRY_RUN") ∧
      (healContainerIssues h env checks).2.2 = [] := by
  unfold healContainerIssues
  dsimp only
  constructor
  · intro act hact
    obtain ⟨p, hp, rfl⟩ := List.mem_map.1 hact
    exact (healAll_dry h env hd checks p hp).1
  · have hflat : ∀ (l : List (HealingAction × List ClusterCall)),
        (∀ p ∈ l, p.2 = ([] : List ClusterCall)) → (l.map (·.2)).flatten = [] := by
      intro l
      induction l with
      | nil => intro _; rfl
      | cons q t iht =>
        intro hall
        simp only [List.map_cons, List.flatten_cons]
        rw [hall q (List.mem_cons_self q t), iht (fun p hp => hall p (List.mem_cons_of_mem q hp))]
        rfl
    exact hflat (healAll h env checks) (fun p hp => (healAll_dry h env hd checks p hp).2)

/-! ## Claim C4 -/

/-- Claim C4, counterexample: with dry-run enabled, dispatching a
`RESTART_POD` prediction produces no `logAction` audit effect at all -
only a `[DRY RUN]` console line - so the would-be mutating action does
not produce an audit record with status DRY_RUN (the action engine has no
`HealingAction` audit records; those exist only in the auto healer). -/
theorem c4_dry_run_counterexample :
    (executeActions (engineNew true) engineEnv0 [predRestart]).2.1.filter
        EngineEffect.isAudit = [] ∧
    (executeActions (engineNew true) engineEnv0 [predRestart]).2.1 =
      [EngineEffect.print "EXECUTING HEALING ACTIONS",
       EngineEffect.print "[DRY RUN] Would restart pod",
       EngineEffect.print "done"] := by
  constructor <;> rfl

/-- Claim C4, amended: with dry-run enabled, no execution path of the
action engine or the auto healer issues a pod delete, a deployment
replica update, or an exec pipeline; the per-key action counters still
increment once per non-skipped dispatch; the auto healer's would-be
mutating actions each produce a `HealingAction` audit record with status
DRY_RUN and no cluster call; but the action engine's dry-run branches
only print a console line and produce no audit record. -/
theorem c4_dry_run_amended (a : ActionEngine) (env : EngineEnv)
    (preds : List PredictionResult) (k : String) (hd : a.dryRun = true)
    (h : AutoHealer) (env2 : ExecEnv) (checks : List ContainerCheckResult)
    (hhd : h.dryRun = true) :
    (∀ e ∈ (executeActions a env preds).2.1, e.isMutatingCall = false) ∧
    (executeActions a env preds).1.actionCounts k =
      a.actionCounts k + countKey k (executeActions a env preds).2.2 ∧
    (∀ act ∈ (healContainerIssues h env2 checks).2.1, act.Status = "DRY_RUN") ∧
    (healContainerIssues h env2 checks).2.2 = [] := by
  refine ⟨executeActions_dry_safe a env preds hd, (executeActions_spec a env preds k).1,
    ?_, ?_⟩
  · exact (healContainerIssues_dry h env2 checks hhd).1
  · exact (healContainerIssues_dry h env2 checks hhd).2

/-- Witness for `c4_dry_run_amended` at concrete dry-run inputs. -/
theorem c4_dry_run_amended_witness :
    (∀ e ∈ (executeActions (engineNew true) engineEnv0 [predRestart]).2.1,
       e.isMutatingCall = false) ∧
    (executeActions (engineNew true) engineEnv0 [predRestart]).1.actionCounts "default/p" =
      (engineNew true).actionCounts "default/p" +
        countKey "default/p" (executeActions (engineNew true) engineEnv0 [predRestart]).2.2 ∧
    (∀ act ∈ (healContainerIssues healerDry execEnv0 [crC4]).2.1, act.Status = "DRY_RUN") ∧
    (healContainerIssues healerDry execEnv0 [crC4]).2.2 = [] :=
  c4_dry_run_amended (engineNew true) engineEnv0 [predRestart] "default/p" rfl
    healerDry execEnv0 [crC4] rfl

/-! ## Claim C5 -/

/-- Claim C5 (code bug): when the network probe reports `Network FAIL` and
the escalation pod delete fails, the audit record's status is `COMPLETED`,
not `FAILED`: the source assigns `action.Status = "FAILED"` inside the
error branch but the unconditional `action.Status = "COMPLETED"` directly
below overwrites it (a dead store).  The error detail is still recorded in
`Result`, and the spec's `FAILED` status never survives. -/
theorem c5_failed_delete_completed_status :
    envC5.deleteErr crC5.Namespace crC5.PodName = true ∧
    (fixNetworkConnectivity healerLive envC5 crC5 checkC5).1.Status = "COMPLETED" ∧
    (fixNetworkConnectivity healerLive envC5 crC5 checkC5).1.Status ≠ "FAILED" ∧
    containsStr (fixNetworkConnectivity healerLive envC5 crC5 checkC5).1.Result
      "Pod restart failed" = true ∧
    ClusterCall.deletePod crC5.Namespace crC5.PodName ∈
      (fixNetworkConnectivity healerLive envC5 crC5 checkC5).2 := by
  refine ⟨rfl, rfl, ?_, rfl, ?_⟩
  · decide
  · decide

/-! ## Helper lemmas about the restart analyzer -/

theorem freqStage_posInf (p : RestartPattern) :
    (freqStage FloatQ.posInf p).Frequency = "VERY_HIGH" ∧
      (freqStage FloatQ.posInf p).Severity = "CRITICAL" := by
  unfold freqStage
  rw [if_pos (show FloatQ.posInf.gtQ 2 = true from rfl)]
  exact ⟨rfl, rfl⟩

theorem patternStage_keep (t : Int) (a : ℚ) (rate : FloatQ) (p : RestartPattern) :
    (patternStage t a rate p).Frequency = p.Frequency ∧
      (patternStage t a rate p).Severity = p.Severity := by
  unfold patternStage
  split_ifs <;> exact ⟨rfl, rfl⟩

theorem exitStep_Frequency (p : RestartPattern) (cs : ContainerStatus) :
    (exitStep p cs).Frequency = p.Frequency := by
  unfold exitStep
  cases cs.LastTermination with
  | none => rfl
  | some t =>
    dsimp only
    split_ifs <;> rfl

theorem exitStep_Severity_critical (p : RestartPattern) (cs : ContainerStatus)
    (h : p.Severity = "CRITICAL") : (exitStep p cs).Severity = "CRITICAL" := by
  unfold exitStep
  cases cs.LastTermination with
  | none => exact h
  | some t =>
    dsimp only
    split_ifs <;> first | rfl | exact h

theorem foldl_exitStep_Frequency (l : List ContainerStatus) :
    ∀ p : RestartPattern, (l.foldl exitStep p).Frequency = p.Frequency := by
  induction l with
  | nil => intro p; rfl
  | cons cs rest ih =>
    intro p
    rw [List.foldl_cons, ih (exitStep p cs), exitStep_Frequency]

theorem foldl_exitStep_Severity_critical (l : List ContainerStatus) :
    ∀ p : RestartPattern, p.Severity = "CRITICAL" →
      (l.foldl exitStep p).Severity = "CRITICAL" := by
  induction l with
  | nil => intro p h; exact h
  | cons cs rest ih =>
    intro p h
    rw [List.foldl_cons]
    exact ih (exitStep p cs) (exitStep_Severity_critical p cs h)

/-! ## Claim C8 -/

/-- Claim C8, counterexample: for a pod of age zero with one restart, the
code computes the rate as `1 / 0 = +Inf` under IEEE semantics - there is
no `max(age_hours, epsilon)` lower bound on the divisor (for every
`epsilon > 0` the claimed formula would give a finite rational, e.g.
`1 / max 0 (1/1000) = 1000`) - and the unbounded rate classifies as
VERY_HIGH / CRITICAL. -/
theorem c8_restart_rate_counterexample :
    restartRate 1 0 = FloatQ.posInf ∧
    FloatQ.posInf ≠ FloatQ.fin ((1 : ℚ) / max 0 (1/1000)) ∧
    (analyzeRestartPattern podC8).Frequency = "VERY_HIGH" ∧
    (analyzeRestartPattern podC8).Severity = "CRITICAL" := by
  refine ⟨?_, by simp, ?_, ?_⟩
  · unfold restartRate
    rw [if_neg (by simp), if_pos (by norm_num)]
  · norm_num +decide [analyzeRestartPattern, totalRestartsOf, podC8, restartRate,
      freqStage, patternStage, exitStep, FloatQ.gtQ]
  · norm_num +decide [analyzeRestartPattern, totalRestartsOf, podC8, restartRate,
      freqStage, patternStage, exitStep, FloatQ.gtQ]

/-- Claim C8, amended: the restart rate is `total_restarts / age_hours`
with no positive lower bound on the divisor; the division never traps
(it is total under IEEE semantics), but for a pod of age zero with a
positive restart count the rate is `+Inf`, which the classifier maps to
frequency VERY_HIGH and severity CRITICAL. -/
theorem c8_restart_rate_amended (pod : Pod) (h0 : pod.AgeHours = 0)
    (hpos : 0 < totalRestartsOf pod) :
    restartRate (totalRestartsOf pod) pod.AgeHours = FloatQ.posInf ∧
    (analyzeRestartPattern pod).Frequency = "VERY_HIGH" ∧
    (analyzeRestartPattern pod).Severity = "CRITICAL" := by
  have hrate : restartRate (totalRestartsOf pod) pod.AgeHours = FloatQ.posInf := by
    unfold restartRate
    rw [h0, if_neg (by simp), if_pos hpos]
  refine ⟨hrate, ?_, ?_⟩ <;>
  · unfold analyzeRestartPattern
    dsimp only
    rw [if_neg (by omega), hrate]
    first
    | rw [foldl_exitStep_Frequency, (patternStage_keep _ _ _ _).1, (freqStage_posInf _).1]
    | exact foldl_exitStep_Severity_critical _ _
        (by rw [(patternStage_keep _ _ _ _).2, (freqStage_posInf _).2])

/-- Witness for `c8_restart_rate_amended` at the concrete age-zero pod. -/
theorem c8_restart_rate_amended_witness :
    restartRate (totalRestartsOf podC8) podC8.AgeHours = FloatQ.posInf ∧
    (analyzeRestartPattern podC8).Frequency = "VERY_HIGH" ∧
    (analyzeRestartPattern podC8).Severity = "CRITICAL" :=
  c8_restart_rate_amended podC8 rfl (by decide)

/-! ## Claim C9 -/

/-- Claim C9, counterexample: a pod whose last termination has exit code
137 but reason `Error` (five restarts over ten hours, so it is emitted by
`AnalyzeRestartPatterns`) gets severity `LOW`, not CRITICAL, and fix tags
`INCREASE_MEMORY`/`CHECK_OOM` appended to the pattern tags, not the
claimed `{INCREASE_MEMORY_LIMITS, CHECK_MEMORY_LEAK, OPTIMIZE_MEMORY}`
set: only reason `OOMKilled` triggers the override, exit code 137 alone
does not. -/
theorem c9_oom_counterexample :
    (analyzeRestartPattern podC9).Severity = "LOW" ∧
    (analyzeRestartPattern podC9).Actions =
      ["CHECK_MEMORY_LEAK", "MONITOR_RESOURCES", "CHECK_LOGS",
       "INCREASE_MEMORY", "CHECK_OOM"] ∧
    (analyzeRestartPattern podC9).RootCause = "Container killed by OOM or system" ∧
    analyzeRestartPattern podC9 ∈ analyzeRestartPatterns [podC9] := by
  refine ⟨?_, ?_, ?_, ?_⟩ <;>
    norm_num +decide [analyzeRestartPattern, analyzeRestartPatterns, totalRestartsOf,
      podC9, restartRate, freqStage, patternStage, exitStep, FloatQ.gtQ, sysFiltered,
      containsStr, containsChars, strHasPre]

/-- Claim C9, amended: the severity/tag override fires on termination
reason `OOMKilled` (with or without exit code 137): for a pod with a
single container status whose last termination reason is `OOMKilled` and
a positive restart count, the emitted pattern has root cause
`Out of Memory killed`, severity CRITICAL, and exactly the fix tags
`{INCREASE_MEMORY_LIMITS, CHECK_MEMORY_LEAK, OPTIMIZE_MEMORY}`; exit code
137 with any other reason only rewrites the root cause and appends
`INCREASE_MEMORY`/`CHECK_OOM` without raising the severity. -/
theorem c9_oom_amended (pod : Pod) (cs : ContainerStatus) (t : TerminatedState)
    (hcs : pod.ContainerStatuses = [cs]) (ht : cs.LastTermination = some t)
    (hr : t.Reason = "OOMKilled") (hpos : totalRestartsOf pod ≠ 0) :
    (analyzeRestartPattern pod).Severity = "CRITICAL" ∧
    (analyzeRestartPattern pod).RootCause = "Out of Memory killed" ∧
    (analyzeRestartPattern pod).Actions =
      ["INCREASE_MEMORY_LIMITS", "CHECK_MEMORY_LEAK", "OPTIMIZE_MEMORY"] := by
  unfold analyzeRestartPattern
  dsimp only
  rw [if_neg hpos, hcs, List.foldl_cons, List.foldl_nil]
  unfold exitStep
  rw [ht]
  dsimp only
  split_ifs <;> exact ⟨rfl, rfl, rfl⟩

/-- Witness for `c9_oom_amended` at the concrete OOMKilled pod. -/
theorem c9_oom_amended_witness :
    (analyzeRestartPattern podC9w).Severity = "CRITICAL" ∧
    (analyzeRestartPattern podC9w).RootCause = "Out of Memory killed" ∧
    (analyzeRestartPattern podC9w).Actions =
      ["INCREASE_MEMORY_LIMITS", "CHECK_MEMORY_LEAK", "OPTIMIZE_MEMORY"] :=
  c9_oom_amended podC9w
    { RestartCount := 5, LastTermination := some { ExitCode := 137, Reason := "OOMKilled" } }
    { ExitCode := 137, Reason := "OOMKilled" } rfl rfl rfl (by decide)

/-! ## Helper lemmas about the system namespace filter -/

theorem buildPodMetric_Namespace (mm : MetricsMap) (pod : Pod) :
    (buildPodMetric mm pod).Namespace = pod.Namespace := by
  unfold buildPodMetric
  dsimp only
  cases mm (pod.Namespace ++ "/" ++ pod.Name) with
  | none => rfl
  | some q =>
    obtain ⟨cq, mq⟩ := q
    cases cq <;> cases mq <;> rfl

theorem getAllPodMetrics_ns (mm : MetricsMap) :
    ∀ pods : List Pod, ∀ pm ∈ getAllPodMetrics mm pods,
      sysFiltered pm.Namespace = false := by
  intro pods
  induction pods with
  | nil => intro pm hpm; simp [getAllPodMetrics] at hpm
  | cons pod rest ih =>
    intro pm hpm
    unfold getAllPodMetrics at hpm
    split_ifs at hpm with hf
    · exact ih pm hpm
    · rcases List.mem_cons.1 hpm with rfl | hpm2
      · rw [buildPodMetric_Namespace]
        exact Bool.not_eq_true _ ▸ (by simpa using hf)
      · exact ih pm hpm2

theorem analyzeRestartPattern_Namespace (pod : Pod) :
    (analyzeRestartPattern pod).Namespace = pod.Namespace := by
  have hfreq : ∀ (r : FloatQ) (p : RestartPattern),
      (freqStage r p).Namespace = p.Namespace := by
    intro r p
    unfold freqStage
    split_ifs <;> rfl
  have hpat : ∀ (t : Int) (a : ℚ) (r : FloatQ) (p : RestartPattern),
      (patternStage t a r p).Namespace = p.Namespace := by
    intro t a r p
    unfold patternStage
    split_ifs <;> rfl
  have hexit : ∀ (p : RestartPattern) (cs : ContainerStatus),
      (exitStep p cs).Namespace = p.Namespace := by
    intro p cs
    unfold exitStep
    cases cs.LastTermination with
    | none => rfl
    | some t =>
      dsimp only
      split_ifs <;> rfl
  have hfold : ∀ (l : List ContainerStatus) (p : RestartPattern),
      (l.foldl exitStep p).Namespace = p.Namespace := by
    intro l
    induction l with
    | nil => intro p; rfl
    | cons cs restl ihl =>
      intro p
      rw [List.foldl_cons, ihl (exitStep p cs), hexit]
  unfold analyzeRestartPattern
  dsimp only
  split_ifs
  · rfl
  · rw [hfold, hpat, hfreq]

theorem analyzeRestartPatterns_ns :
    ∀ pods : List Pod, ∀ pat ∈ analyzeRestartPatterns pods,
      sysFiltered pat.Namespace = false := by
  intro pods
  induction pods with
  | nil => intro pat hp; simp [analyzeRestartPatterns] at hp
  | cons pod rest ih =>
    intro pat hp
    unfold analyzeRestartPatterns at hp
    dsimp only at hp
    split_ifs at hp with hf hc
    · exact ih pat hp
    · rcases List.mem_cons.1 hp with rfl | hp2
      · rw [analyzeRestartPattern_Namespace]
        simpa using hf
      · exact ih pat hp2
    · exact ih pat hp

theorem analyzeContainer_Namespace (env : DiagEnv) (hist : HistMap)
    (nsp podName containerName : String) :
    (analyzeContainer env hist nsp podName containerName).1.Namespace = nsp := by
  unfold analyzeContainer
  dsimp only
  split_ifs <;> rfl

theorem diagPodContainers_ns (env : DiagEnv) (nsp podName : String) :
    ∀ (cs : List String) (hist : HistMap),
      ∀ dr ∈ (diagPodContainers env nsp podName hist cs).1, dr.Namespace = nsp := by
  intro cs
  induction cs with
  | nil => intro hist dr hdr; simp [diagPodContainers] at hdr
  | cons c rest ih =>
    intro hist dr hdr
    unfold diagPodContainers at hdr
    dsimp only at hdr
    split_ifs at hdr with hs
    · rcases List.mem_cons.1 hdr with rfl | hdr2
      · exact analyzeContainer_Namespace env hist nsp podName c
      · exact ih _ dr hdr2
    · exact ih _ dr hdr

theorem diagnoseStuckContainers_ns (env : DiagEnv) :
    ∀ (pods : List Pod) (hist : HistMap),
      ∀ dr ∈ (diagnoseStuckContainers env hist pods).1,
        sysFiltered dr.Namespace = false := by
  intro pods
  induction pods with
  | nil => intro hist dr hdr; simp [diagnoseStuckContainers] at hdr
  | cons pod rest ih =>
    intro hist dr hdr
    unfold diagnoseStuckContainers at hdr
    split_ifs at hdr with hp hf
    · exact ih hist dr hdr
    · exact ih hist dr hdr
    · dsimp only at hdr
      rcases List.mem_append.1 hdr with h1 | h2
      · rw [diagPodContainers_ns env pod.Namespace pod.Name pod.Containers hist dr h1]
        simpa using hf
      · exact ih _ dr h2

theorem checksForPod_ns (env : DiagEnv) (pod : Pod) :
    ∀ cr ∈ checksForPod env pod, cr.Namespace = pod.Namespace := by
  unfold checksForPod
  induction pod.Containers with
  | nil => intro cr hcr; simp at hcr
  | cons c rest ih =>
    intro cr hcr
    rw [List.foldr_cons] at hcr
    dsimp only at hcr
    split_ifs at hcr with hn
    · rcases List.mem_cons.1 hcr with rfl | hcr2
      · rfl
      · exact ih cr hcr2
    · exact ih cr hcr

theorem runContainerChecks_ns (env : DiagEnv) :
    ∀ pods : List Pod, ∀ cr ∈ runContainerChecks env pods,
      sysFiltered cr.Namespace = false := by
  intro pods
  induction pods with
  | nil => intro cr hcr; simp [runContainerChecks] at hcr
  | cons pod rest ih =>
    intro cr hcr
    unfold runContainerChecks at hcr
    split_ifs at hcr with hp hf
    · exact ih cr hcr
    · exact ih cr hcr
    · rcases List.mem_append.1 hcr with h1 | h2
      · rw [checksForPod_ns env pod cr h1]
        simpa using hf
      · exact ih cr h2

theorem sysFiltered_false_iff (nsp : String) :
    sysFiltered nsp = false ↔
      containsStr nsp "kube-" = false ∧ containsStr nsp "healer-" = false := by
  unfold sysFiltered
  constructor
  · intro h
    exact ⟨by cases hx : containsStr nsp "kube-" <;> simp_all,
           by cases hx : containsStr nsp "healer-" <;> simp_all⟩
  · intro ⟨h1, h2⟩
    rw [h1, h2]
    rfl

/-! ## Claim C10 -/

/-- Claim C10: a pod whose namespace contains the substring `kube-` or
`healer-` anywhere is excluded by every pipeline stage - the collector,
the restart analyzer, the stuck-container diagnostics and the container
checks - equivalently, every record these stages emit has a namespace
containing neither substring. -/
theorem c10_system_namespace_filter (pods : List Pod) (mm : MetricsMap)
    (denv : DiagEnv) (hist : HistMap) :
    (∀ pm ∈ getAllPodMetrics mm pods,
      containsStr pm.Namespace "kube-" = false ∧
        containsStr pm.Namespace "healer-" = false) ∧
    (∀ pat ∈ analyzeRestartPatterns pods,
      containsStr pat.Namespace "kube-" = false ∧
        containsStr pat.Namespace "healer-" = false) ∧
    (∀ dr ∈ (diagnoseStuckContainers denv hist pods).1,
      containsStr dr.Namespace "kube-" = false ∧
        containsStr dr.Namespace "healer-" = false) ∧
    (∀ cr ∈ runContainerChecks denv pods,
      containsStr cr.Namespace "kube-" = false ∧
        containsStr cr.Namespace "healer-" = false) := by
  refine ⟨fun pm hpm => ?_, fun pat hp => ?_, fun dr hdr => ?_, fun cr hcr => ?_⟩
  · exact (sysFiltered_false_iff _).1 (getAllPodMetrics_ns mm pods pm hpm)
  · exact (sysFiltered_false_iff _).1 (analyzeRestartPatterns_ns pods pat hp)
  · exact (sysFiltered_false_iff _).1 (diagnoseStuckContainers_ns denv pods hist dr hdr)
  · exact (sysFiltered_false_iff _).1 (runContainerChecks_ns denv pods cr hcr)

/-- Witness for `c10_system_namespace_filter`: the record emitted for a
pod in the `default` namespace has a namespace containing neither
system substring. -/
theorem c10_system_namespace_filter_witness :
    containsStr (buildPodMetric mm0 podC10).Namespace "kube-" = false ∧
      containsStr (buildPodMetric mm0 podC10).Namespace "healer-" = false :=
  (c10_system_namespace_filter [podC10] mm0 diagEnv0 hist0).1
    (buildPodMetric mm0 podC10)
    (by unfold getAllPodMetrics
        rw [if_neg (by decide)]
        exact List.mem_cons_self _ _)
